import Mathlib

/-!
Verification of the cascading command-stream generator and command-stream
codec of the Ethos-N driver stack support library, against its
natural-language specification.

The definitions below are a shallow embedding of
src/driver/support_library/src/cascading/CascadingCommandStreamGenerator.cpp
and src/driver/support_library/command_stream/xml_to_binary/BinaryParser.cpp.
C++ machine integers are modelled as Nat (with explicit wrap-around where the
C++ can wrap), C assertions as hard construction errors in an Except monad,
and the per-agent configuration payloads carry exactly the fields that the
dependency logic and the codec read; register payload fields that no control
flow or theorem reads are not modelled.  Helper functions that are declared
in headers outside the available sources are modelled from the specification
and are marked as such in their doc comments.
-/

namespace EthosN

/-- Modelled from the spec: utils::DivRoundUp (declared in a utility header
that is not under src/).  The spec states that stripe-count divisions are
rounded up, which is the standard ceiling division on non-negative ints. -/
def DivRoundUp (numerator denominator : Nat) : Nat :=
  (numerator + denominator - 1) / denominator

/-- Errors raised while building agents and dependencies.  C assertions in
the generator are modelled as assertionFailure construction errors. -/
inductive GenError where
  | assertionFailure (msg : String)
  | notSupported (msg : String)
  deriving DecidableEq, Repr

/-- Model of a C assert: a failed assertion aborts construction. -/
def assertThat (b : Bool) (msg : String) : Except GenError Unit :=
  if b then pure () else Except.error (GenError.assertionFailure msg)

/-- command_stream::cascading::AgentType: the six hardware-engine roles. -/
inductive AgentType where
  | IFM_STREAMER
  | WGT_STREAMER
  | MCE_SCHEDULER
  | PLE_LOADER
  | PLE_SCHEDULER
  | OFM_STREAMER
  deriving DecidableEq, Repr

/-- One self/other ratio of a dependency (command_stream::cascading::Ratio). -/
structure DependencyRatio where
  other : Nat
  self : Nat
  deriving DecidableEq, Repr

/-- command_stream::cascading::Dependency: a directed synchronization edge
carrying a relative agent id, outer and inner self/other ratios and the
0/1 boundary slack flag. -/
structure Dependency where
  relativeAgentId : Nat
  outerRatio : DependencyRatio
  innerRatio : DependencyRatio
  boundary : Nat
  deriving DecidableEq, Repr

/-- Value initialization of Dependency (the C++ writes Dependency d = \x7b\x7d;). -/
def Dependency.zeroed : Dependency :=
  { relativeAgentId := 0, outerRatio := ⟨0, 0⟩, innerRatio := ⟨0, 0⟩, boundary := 0 }

/-- DependencyType: whether a producer-side edge is a Write-After-Read or a
Schedule-Time dependency. -/
inductive DependencyType where
  | Write
  | Schedule
  deriving DecidableEq, Repr

/-- Stripe grid of a feature-map streamer (IfmSDesc/OfmSDesc fmData.numStripes). -/
structure FmSDataNumStripes where
  width : Nat
  height : Nat
  channels : Nat
  deriving DecidableEq, Repr

/-- Feature-map streamer data: the stripe grid and the default stripe height
(fmData.defaultStripeSize.height, the only component of defaultStripeSize the
dependency logic reads). -/
structure FmSData where
  numStripes : FmSDataNumStripes
  defaultStripeSizeHeight : Nat
  deriving DecidableEq, Repr

/-- IfmSDesc: IFM streamer agent payload (dependency-relevant part). -/
structure IfmSDesc where
  fmData : FmSData
  deriving DecidableEq, Repr

/-- OfmSDesc: OFM streamer agent payload (dependency-relevant part). -/
structure OfmSDesc where
  fmData : FmSData
  deriving DecidableEq, Repr

/-- WgtSDesc numStripes: weight streamer stripe counts. -/
structure WgtSNumStripes where
  ifmChannels : Nat
  ofmChannels : Nat
  deriving DecidableEq, Repr

/-- WgtSDesc: weight streamer agent payload (dependency-relevant part). -/
structure WgtSDesc where
  numStripes : WgtSNumStripes
  deriving DecidableEq, Repr

/-- command_stream::MceOperation. -/
inductive MceOperation where
  | CONVOLUTION
  | DEPTHWISE_CONVOLUTION
  | FULLY_CONNECTED
  deriving DecidableEq, Repr

/-- MceSDesc numStripes: MCE scheduler stripe counts per axis. -/
structure MceSNumStripes where
  ofmHeight : Nat
  ofmWidth : Nat
  ofmChannels : Nat
  ifmChannels : Nat
  deriving DecidableEq, Repr

/-- MceSDesc: MCE scheduler agent payload (dependency-relevant part). -/
structure MceSDesc where
  numStripes : MceSNumStripes
  mceOpMode : MceOperation
  deriving DecidableEq, Repr

/-- PleLDesc: PLE kernel loader agent payload (dependency-relevant part). -/
structure PleLDesc where
  pleKernelId : Nat
  deriving DecidableEq, Repr

/-- PleSDesc numStripes: PLE scheduler stripe counts per axis. -/
structure PleSNumStripes where
  height : Nat
  width : Nat
  channels : Nat
  deriving DecidableEq, Repr

/-- PleSDesc: PLE scheduler agent payload (dependency-relevant part). -/
structure PleSDesc where
  numStripes : PleSNumStripes
  defaultStripeSizeHeight : Nat
  deriving DecidableEq, Repr

/-- command_stream::PleOperation: the PLE kernel kind.  The dependency logic
only distinguishes the two 3x3/2,2 maxpool kernels; the remaining kernel
kinds behave like PASSTHROUGH there and are collapsed into these members. -/
inductive PleOperation where
  | PASSTHROUGH
  | LEAKY_RELU
  | MAXPOOL_3X3_2_2_EVEN
  | MAXPOOL_3X3_2_2_ODD
  deriving DecidableEq, Repr

/-- AgentDesc union: the per-role payload, tagged by the role. -/
inductive AgentData where
  | ifm (d : IfmSDesc)
  | wgt (d : WgtSDesc)
  | mce (d : MceSDesc)
  | pleL (d : PleLDesc)
  | pleS (d : PleSDesc)
  | ofm (d : OfmSDesc)
  deriving DecidableEq, Repr

/-- AgentDesc::type: the tag of the payload union. -/
def AgentData.agentType : AgentData → AgentType
  | .ifm _ => .IFM_STREAMER
  | .wgt _ => .WGT_STREAMER
  | .mce _ => .MCE_SCHEDULER
  | .pleL _ => .PLE_LOADER
  | .pleS _ => .PLE_SCHEDULER
  | .ofm _ => .OFM_STREAMER

/-- Union member access AgentDesc::ifm.  On a mismatched tag the C++ union
access is undefined behaviour; the zeroed default is never reached on the
call paths modelled here (the switch arms guard the tag). -/
def AgentData.ifmD : AgentData → IfmSDesc
  | .ifm d => d
  | _ => ⟨⟨⟨0, 0, 0⟩, 0⟩⟩

/-- Union member access AgentDesc::wgt. -/
def AgentData.wgtD : AgentData → WgtSDesc
  | .wgt d => d
  | _ => ⟨⟨0, 0⟩⟩

/-- Union member access AgentDesc::mce. -/
def AgentData.mceD : AgentData → MceSDesc
  | .mce d => d
  | _ => ⟨⟨0, 0, 0, 0⟩, .CONVOLUTION⟩

/-- Union member access AgentDesc::pleL. -/
def AgentData.pleLD : AgentData → PleLDesc
  | .pleL d => d
  | _ => ⟨0⟩

/-- Union member access AgentDesc::pleS. -/
def AgentData.pleSD : AgentData → PleSDesc
  | .pleS d => d
  | _ => ⟨⟨0, 0, 0⟩, 0⟩

/-- Union member access AgentDesc::ofm. -/
def AgentData.ofmD : AgentData → OfmSDesc
  | .ofm d => d
  | _ => ⟨⟨⟨0, 0, 0⟩, 0⟩⟩

/-- AgentDesc: an agent with its total stripe count and its payload. -/
structure AgentDesc where
  numStripesTotal : Nat
  data : AgentData
  deriving DecidableEq, Repr

/-- AgentDependencyInfo: the three dependency sets owned by one agent. -/
structure AgentDependencyInfo where
  readDependencies : List Dependency
  writeDependencies : List Dependency
  scheduleDependencies : List Dependency
  deriving DecidableEq, Repr

/-- Empty dependency sets (value initialization in the C++). -/
def AgentDependencyInfo.empty : AgentDependencyInfo := ⟨[], [], []⟩

/-- AgentDescAndDeps: one entry of m_CommandStreamAgents. -/
structure AgentDescAndDeps where
  agent : AgentDesc
  deps : AgentDependencyInfo
  deriving DecidableEq, Repr

/-- Out-of-range vector access placeholder (undefined behaviour in the C++;
all theorems below carry in-range hypotheses or use in-range indices). -/
def defaultAgentDescAndDeps : AgentDescAndDeps :=
  ⟨⟨0, .pleL ⟨0⟩⟩, AgentDependencyInfo.empty⟩

namespace DependencyUtils

/-- Modelled from the spec: DependencyUtils::CalculateInnerRatio is declared
in CascadingCommandStreamGeneratorUtils.hpp, which is not under src/.  The
spec describes the inner ratio as the value already computed by the per-pair
rules (rounded-up stripe-count divisions), with no further transformation,
so the modelled post-processing is the identity. -/
def calculateInnerRatio (d : Dependency) : Dependency := d

/-- Modelled from the spec: DependencyUtils::CalculateRemainingAgentDependencies
is declared in CascadingCommandStreamGeneratorUtils.hpp, which is not under
src/.  The spec attaches no further transformation to a filled dependency,
so the modelled post-processing is the identity. -/
def calculateRemainingAgentDependencies (d : Dependency) : Dependency := d

/-- Modelled from the spec: DependencyUtils::CalculateIfmSMceSOuterRatio is
declared in CascadingCommandStreamGeneratorUtils.hpp, which is not under
src/.  Per the spec the outer ratio is the total-stripe-count relationship
of the two agents; the pair returned is (self, other) for the agent the
dependency is being filled for. -/
def calculateIfmSMceSOuterRatio (forAgent otherAgent : AgentDesc) : Nat × Nat :=
  (forAgent.numStripesTotal, otherAgent.numStripesTotal)

/-- Modelled from the spec: DependencyUtils::CalculateMceSBoundary is
declared in CascadingCommandStreamGeneratorUtils.hpp, which is not under
src/.  The spec fixes only the meaning of the flag (one extra unit of slack
when stripe grids do not line up) and not its formula for the MCE scheduler,
so it is modelled as the constant 0; no theorem below depends on this value. -/
def calculateMceSBoundary (_m : MceSDesc) : Nat := 0

end DependencyUtils

/-- The switch statement of
CascadingCommandStreamGenerator::FillConsumerAgentDependency: the rule table
keyed on (consumer role, producer role) for a Read-After-Write (or
SRAM-overlap) dependency owned by the consumer agent.  The producerPleOp
argument stands for the PleOp producer operation that the C++ reads through
the producerOp pointer in the OfmS/PleS arm. -/
def fillConsumerAgentDependencySwitch (agents : List AgentDescAndDeps) (dep0 : Dependency)
    (consumerAgentType : AgentType) (consumerAgentId : Nat)
    (producerAgentType : AgentType) (producerAgentId : Nat)
    (producerPleOp : PleOperation) : Except GenError Dependency :=
  let consumerAgentAndDeps := agents.getD consumerAgentId defaultAgentDescAndDeps
  let consumerAgentData := consumerAgentAndDeps.agent.data
  let consumerAgentNumStripes := consumerAgentAndDeps.agent.numStripesTotal
  let producerAgentAndDeps := agents.getD producerAgentId defaultAgentDescAndDeps
  let producerAgentData := producerAgentAndDeps.agent.data
  let producerAgentNumStripes := producerAgentAndDeps.agent.numStripesTotal
  (match consumerAgentType, producerAgentType with
    | .IFM_STREAMER, .OFM_STREAMER =>
      -- The IfmS should wait until the OfmS has completely finished.
      pure { dep0 with
        outerRatio := ⟨producerAgentNumStripes, consumerAgentNumStripes⟩,
        innerRatio := ⟨producerAgentNumStripes, 1⟩,
        boundary := 0 }
    | .IFM_STREAMER, _ => pure dep0
    | .WGT_STREAMER, .OFM_STREAMER =>
      -- The WgtS should wait until the OfmS has completely finished.
      pure { dep0 with
        outerRatio := ⟨producerAgentNumStripes, consumerAgentNumStripes⟩,
        innerRatio := ⟨producerAgentNumStripes, 1⟩,
        boundary := 0 }
    | .WGT_STREAMER, .PLE_SCHEDULER =>
      -- The WgtS should wait until the prior PleS in the same section has
      -- completely finished.
      pure { dep0 with
        outerRatio := ⟨producerAgentNumStripes, consumerAgentNumStripes⟩,
        innerRatio := ⟨producerAgentNumStripes, 1⟩,
        boundary := 0 }
    | .WGT_STREAMER, _ => pure dep0
    | .MCE_SCHEDULER, .IFM_STREAMER => do
      let outer := DependencyUtils.calculateIfmSMceSOuterRatio
        consumerAgentAndDeps.agent producerAgentAndDeps.agent
      -- The MceS can process more data than is loaded by the IfmS.
      let widthRatio := DivRoundUp consumerAgentData.mceD.numStripes.ofmWidth
        producerAgentData.ifmD.fmData.numStripes.width
      let heightRatio := DivRoundUp consumerAgentData.mceD.numStripes.ofmHeight
        producerAgentData.ifmD.fmData.numStripes.height
      (if consumerAgentData.mceD.mceOpMode = MceOperation.DEPTHWISE_CONVOLUTION then
        assertThat (consumerAgentData.mceD.numStripes.ifmChannels == 1)
          "depthwise consumer has one ifm channel stripe"
      else
        assertThat (consumerAgentData.mceD.numStripes.ifmChannels ==
            producerAgentData.ifmD.fmData.numStripes.channels)
          "consumer ifm channel stripes match producer channel stripes")
      pure { dep0 with
        outerRatio := ⟨outer.2, outer.1⟩,
        innerRatio := ⟨widthRatio * heightRatio, 1⟩,
        boundary := DependencyUtils.calculateMceSBoundary consumerAgentData.mceD }
    | .MCE_SCHEDULER, .WGT_STREAMER =>
      -- MCE always traverses in IXYO order.  Each MCE stripe needs a new
      -- weight stripe, unless a weight stripe can be re-used, which can only
      -- happen if we are not IFM splitting and we are moving in XY.
      let inner : DependencyRatio :=
        if consumerAgentData.mceD.numStripes.ifmChannels = 1 then
          -- Weight stripes can be re-used as we move in XY
          ⟨1, consumerAgentData.mceD.numStripes.ofmHeight *
              consumerAgentData.mceD.numStripes.ofmWidth⟩
        else
          -- No re-use, 1:1 dependency
          ⟨1, 1⟩
      pure { dep0 with
        outerRatio := ⟨producerAgentNumStripes, consumerAgentNumStripes⟩,
        innerRatio := inner,
        boundary := 0 }
    | .MCE_SCHEDULER, .PLE_SCHEDULER =>
      -- Calculate outer ratios using number of stripes
      let widthRatio := DivRoundUp producerAgentData.pleSD.numStripes.width
        consumerAgentData.mceD.numStripes.ofmWidth
      let heightRatio := DivRoundUp producerAgentData.pleSD.numStripes.height
        consumerAgentData.mceD.numStripes.ofmHeight
      let channelRatio := DivRoundUp producerAgentData.pleSD.numStripes.channels
        consumerAgentData.mceD.numStripes.ofmChannels
      pure { dep0 with
        outerRatio := ⟨producerAgentData.pleSD.numStripes.height *
            producerAgentData.pleSD.numStripes.width *
            producerAgentData.pleSD.numStripes.channels,
          consumerAgentData.mceD.numStripes.ofmHeight *
            consumerAgentData.mceD.numStripes.ofmWidth *
            consumerAgentData.mceD.numStripes.ofmChannels⟩,
        innerRatio := ⟨widthRatio * heightRatio * channelRatio, 1⟩,
        boundary := DependencyUtils.calculateMceSBoundary consumerAgentData.mceD }
    | .MCE_SCHEDULER, _ => Except.error (GenError.assertionFailure "false")
    | .PLE_LOADER, .PLE_SCHEDULER =>
      pure { dep0 with
        outerRatio := ⟨producerAgentNumStripes, consumerAgentNumStripes⟩,
        innerRatio := ⟨producerAgentNumStripes, 1⟩,
        boundary := 0 }
    | .PLE_LOADER, .OFM_STREAMER =>
      pure { dep0 with
        outerRatio := ⟨producerAgentNumStripes, consumerAgentNumStripes⟩,
        innerRatio := ⟨producerAgentNumStripes, 1⟩,
        boundary := 0 }
    | .PLE_LOADER, _ => Except.error (GenError.assertionFailure "false")
    | .PLE_SCHEDULER, .IFM_STREAMER =>
      -- Calculate outer ratios using number of stripes
      pure { dep0 with
        outerRatio := ⟨producerAgentData.ifmD.fmData.numStripes.width *
            producerAgentData.ifmD.fmData.numStripes.height *
            producerAgentData.ifmD.fmData.numStripes.channels,
          consumerAgentData.pleSD.numStripes.height *
            consumerAgentData.pleSD.numStripes.width *
            consumerAgentData.pleSD.numStripes.channels⟩ }
    | .PLE_SCHEDULER, .MCE_SCHEDULER =>
      -- Outer ratio not used (set to max)
      -- Calculate inner ratios using ratio of stripe channels
      let channelRatio := DivRoundUp producerAgentData.mceD.numStripes.ofmChannels
        consumerAgentData.pleSD.numStripes.channels
      -- Set boundary to 1 if producer stripe count is not a factor of
      -- consumer stripe count
      let numberOfIfmStripesInXYDimProducer :=
        producerAgentData.mceD.numStripes.ofmWidth *
          producerAgentData.mceD.numStripes.ofmHeight
      let numberOfIfmStripesInXYDimConsumer :=
        consumerAgentData.pleSD.numStripes.width *
          consumerAgentData.pleSD.numStripes.height
      let ifmStripeRemainder :=
        numberOfIfmStripesInXYDimConsumer % numberOfIfmStripesInXYDimProducer
      pure { dep0 with
        outerRatio := ⟨producerAgentNumStripes, consumerAgentNumStripes⟩,
        innerRatio := ⟨channelRatio * producerAgentData.mceD.numStripes.ifmChannels, 1⟩,
        boundary := if ifmStripeRemainder = 0 then 0 else 1 }
    | .PLE_SCHEDULER, .PLE_LOADER =>
      pure { dep0 with
        outerRatio := ⟨1, consumerAgentData.pleSD.numStripes.height *
            consumerAgentData.pleSD.numStripes.width *
            consumerAgentData.pleSD.numStripes.channels⟩ }
    | .PLE_SCHEDULER, .PLE_SCHEDULER =>
      -- We only support strategy 3 (full tensor) cascading for Ple to Ple
      pure { dep0 with outerRatio := ⟨1, 1⟩ }
    | .PLE_SCHEDULER, _ => Except.error (GenError.assertionFailure "false")
    | .OFM_STREAMER, .IFM_STREAMER =>
      -- Simple 1:1 dependency
      pure { dep0 with
        outerRatio := ⟨1, 1⟩, innerRatio := ⟨1, 1⟩, boundary := 0 }
    | .OFM_STREAMER, .PLE_SCHEDULER =>
      -- Normally a simple 1:1 dependency, but in some cases the PLE can have
      -- multiple stripes for each OFM stripe.
      -- Inner ratio based on the stripe heights
      let innerOther := consumerAgentData.ofmD.fmData.defaultStripeSizeHeight /
        producerAgentData.pleSD.defaultStripeSizeHeight
      let boundary :=
        if (producerPleOp = PleOperation.MAXPOOL_3X3_2_2_EVEN ∨
            producerPleOp = PleOperation.MAXPOOL_3X3_2_2_ODD) ∧
            producerAgentData.pleSD.numStripes.height > 1 then 1 else 0
      pure { dep0 with
        outerRatio := ⟨producerAgentNumStripes, consumerAgentNumStripes⟩,
        innerRatio := ⟨innerOther, 1⟩,
        boundary := boundary }
    | .OFM_STREAMER, _ => Except.error (GenError.assertionFailure "false"))

/-- Shared tail of both Fill functions: when the relative agent id is not
zero, the remaining dependency data is post-processed. -/
def fillCalculateRemaining (dep : Dependency) : Dependency :=
  if dep.relativeAgentId ≠ 0 then
    DependencyUtils.calculateRemainingAgentDependencies
      (DependencyUtils.calculateInnerRatio dep)
  else
    dep

/-- CascadingCommandStreamGenerator::FillConsumerAgentDependency: the switch
followed by the post-processing of the remaining dependency data. -/
def fillConsumerAgentDependency (agents : List AgentDescAndDeps) (dep0 : Dependency)
    (consumerAgentType : AgentType) (consumerAgentId : Nat)
    (producerAgentType : AgentType) (producerAgentId : Nat)
    (producerPleOp : PleOperation) : Except GenError Dependency := do
  let dep ← fillConsumerAgentDependencySwitch agents dep0 consumerAgentType
    consumerAgentId producerAgentType producerAgentId producerPleOp
  pure (fillCalculateRemaining dep)

/-- The switch statement of
CascadingCommandStreamGenerator::FillProducerAgentDependency: the rule table
keyed on (consumer role, producer role) for a Write-After-Read or
Schedule-Time dependency owned by the producer agent. -/
def fillProducerAgentDependencySwitch (agents : List AgentDescAndDeps) (dep0 : Dependency)
    (consumerAgentType : AgentType) (consumerAgentId : Nat)
    (producerAgentType : AgentType) (producerAgentId : Nat)
    (producerPleOp : PleOperation) (dependencyType : DependencyType) :
    Except GenError Dependency :=
  let consumerAgentAndDeps := agents.getD consumerAgentId defaultAgentDescAndDeps
  let consumerAgentData := consumerAgentAndDeps.agent.data
  let consumerAgentNumStripes := consumerAgentAndDeps.agent.numStripesTotal
  let producerAgentAndDeps := agents.getD producerAgentId defaultAgentDescAndDeps
  let producerAgentData := producerAgentAndDeps.agent.data
  let producerAgentNumStripes := producerAgentAndDeps.agent.numStripesTotal
  (match consumerAgentType, producerAgentType with
    | .IFM_STREAMER, .OFM_STREAMER =>
      -- The last OFM stripe is needed by the first IFM stripe
      pure { dep0 with
        outerRatio := ⟨consumerAgentNumStripes, producerAgentNumStripes⟩,
        innerRatio := ⟨1, producerAgentNumStripes⟩,
        boundary := 0 }
    | .IFM_STREAMER, _ => pure dep0
    | .WGT_STREAMER, _ => Except.error (GenError.assertionFailure "false")
    | .MCE_SCHEDULER, .IFM_STREAMER => do
      let outer := DependencyUtils.calculateIfmSMceSOuterRatio
        producerAgentAndDeps.agent consumerAgentAndDeps.agent
      -- The MceS can process more data than is loaded by the IfmS.
      let widthRatio := DivRoundUp consumerAgentData.mceD.numStripes.ofmWidth
        producerAgentData.ifmD.fmData.numStripes.width
      let heightRatio := DivRoundUp consumerAgentData.mceD.numStripes.ofmHeight
        producerAgentData.ifmD.fmData.numStripes.height
      (if consumerAgentData.mceD.mceOpMode = MceOperation.DEPTHWISE_CONVOLUTION then
        assertThat (consumerAgentData.mceD.numStripes.ifmChannels == 1)
          "depthwise consumer has one ifm channel stripe"
      else
        assertThat (producerAgentData.ifmD.fmData.numStripes.channels ==
            consumerAgentData.mceD.numStripes.ifmChannels)
          "producer channel stripes match consumer ifm channel stripes")
      pure { dep0 with
        outerRatio := ⟨outer.2, outer.1⟩,
        innerRatio := ⟨1, widthRatio * heightRatio⟩,
        boundary := DependencyUtils.calculateMceSBoundary consumerAgentData.mceD }
    | .MCE_SCHEDULER, .WGT_STREAMER =>
      -- MCE always traverses in IXYO order.  Each MCE stripe needs a new
      -- weight stripe, unless a weight stripe can be re-used, which can only
      -- happen if we are not IFM splitting and we are moving in XY.
      let inner : DependencyRatio :=
        if consumerAgentData.mceD.numStripes.ifmChannels = 1 then
          -- Weight stripes can be re-used as we move in XY
          ⟨consumerAgentData.mceD.numStripes.ofmHeight *
              consumerAgentData.mceD.numStripes.ofmWidth, 1⟩
        else
          -- No re-use, 1:1 dependency.  NOTE: the C++ here assigns
          -- innerRatio.other twice and never assigns innerRatio.self, which
          -- therefore keeps its zero initialization; this is mirrored
          -- faithfully (self = dep0.innerRatio.self).
          ⟨1, dep0.innerRatio.self⟩
      pure { dep0 with
        outerRatio := ⟨consumerAgentNumStripes, producerAgentNumStripes⟩,
        innerRatio := inner,
        boundary := 0 }
    | .MCE_SCHEDULER, .PLE_LOADER =>
      pure { dep0 with
        outerRatio := ⟨consumerAgentData.mceD.numStripes.ofmHeight *
            consumerAgentData.mceD.numStripes.ofmWidth *
            consumerAgentData.mceD.numStripes.ifmChannels, 1⟩,
        innerRatio := ⟨consumerAgentData.mceD.numStripes.ofmHeight *
            consumerAgentData.mceD.numStripes.ofmWidth *
            consumerAgentData.mceD.numStripes.ifmChannels, 1⟩,
        boundary := 0 }
    | .MCE_SCHEDULER, .PLE_SCHEDULER =>
      if dependencyType = DependencyType.Write ∧ consumerAgentNumStripes = 1 then
        -- For the case where we have the PLE stripes split in height but
        -- being written into an output buffer which is the full tensor, we
        -- have only one stripe in the following MceS.  We do not want a
        -- write dependency from the PleS onto this MceS, otherwise it will
        -- stall.
        pure { dep0 with relativeAgentId := 0 }
      else
        -- Calculate inner ratios using ratio of stripe size
        let widthRatio := DivRoundUp producerAgentData.pleSD.numStripes.width
          consumerAgentData.mceD.numStripes.ofmWidth
        let heightRatio := DivRoundUp producerAgentData.pleSD.numStripes.height
          consumerAgentData.mceD.numStripes.ofmHeight
        let channelRatio := DivRoundUp producerAgentData.pleSD.numStripes.channels
          consumerAgentData.mceD.numStripes.ofmChannels
        pure { dep0 with
          outerRatio := ⟨consumerAgentData.mceD.numStripes.ofmHeight *
              consumerAgentData.mceD.numStripes.ofmWidth *
              consumerAgentData.mceD.numStripes.ofmChannels,
            producerAgentData.pleSD.numStripes.height *
              producerAgentData.pleSD.numStripes.width *
              producerAgentData.pleSD.numStripes.channels⟩,
          innerRatio := ⟨1, widthRatio * heightRatio * channelRatio⟩,
          boundary := DependencyUtils.calculateMceSBoundary consumerAgentData.mceD }
    | .MCE_SCHEDULER, _ => Except.error (GenError.assertionFailure "false")
    | .PLE_LOADER, _ => Except.error (GenError.assertionFailure "false")
    | .PLE_SCHEDULER, .IFM_STREAMER =>
      -- Calculate outer ratios using number of stripes.
      pure { dep0 with
        outerRatio := ⟨consumerAgentData.pleSD.numStripes.height *
            consumerAgentData.pleSD.numStripes.width *
            consumerAgentData.pleSD.numStripes.channels,
          producerAgentData.ifmD.fmData.numStripes.width *
            producerAgentData.ifmD.fmData.numStripes.height *
            producerAgentData.ifmD.fmData.numStripes.channels⟩ }
    | .PLE_SCHEDULER, .MCE_SCHEDULER =>
      -- Outer ratio not used (set to max)
      -- Calculate inner ratios using ratio of stripe channels
      let channelRatio := DivRoundUp consumerAgentData.pleSD.numStripes.channels
        producerAgentData.mceD.numStripes.ofmChannels
      -- Set boundary to 1 if producer stripe count is not a factor of
      -- consumer stripe count
      let numberOfIfmStripesInXYDimProducer :=
        producerAgentData.mceD.numStripes.ofmWidth *
          producerAgentData.mceD.numStripes.ofmHeight *
          producerAgentData.mceD.numStripes.ofmChannels
      let numberOfIfmStripesInXYDimConsumer :=
        consumerAgentData.pleSD.numStripes.width *
          consumerAgentData.pleSD.numStripes.height *
          consumerAgentData.pleSD.numStripes.channels
      let ifmStripeRemainder :=
        numberOfIfmStripesInXYDimConsumer % numberOfIfmStripesInXYDimProducer
      pure { dep0 with
        outerRatio := ⟨consumerAgentNumStripes, producerAgentNumStripes⟩,
        innerRatio := ⟨1, channelRatio * producerAgentData.mceD.numStripes.ifmChannels⟩,
        boundary := if ifmStripeRemainder = 0 then 0 else 1 }
    | .PLE_SCHEDULER, .PLE_LOADER =>
      pure { dep0 with
        outerRatio := ⟨consumerAgentData.pleSD.numStripes.height *
            consumerAgentData.pleSD.numStripes.width *
            consumerAgentData.pleSD.numStripes.channels, 1⟩ }
    | .PLE_SCHEDULER, .PLE_SCHEDULER =>
      -- We only support strategy 3 (full tensor) cascading for Ple to Ple
      pure { dep0 with outerRatio := ⟨1, 1⟩ }
    | .PLE_SCHEDULER, _ => Except.error (GenError.assertionFailure "false")
    | .OFM_STREAMER, .IFM_STREAMER =>
      -- Simple 1:1 dependency
      pure { dep0 with
        outerRatio := ⟨1, 1⟩, innerRatio := ⟨1, 1⟩, boundary := 0 }
    | .OFM_STREAMER, .PLE_SCHEDULER =>
      -- Normally a simple 1:1 dependency, but in some cases the PLE can have
      -- multiple stripes for each OFM stripe.
      let innerOther := producerAgentData.pleSD.defaultStripeSizeHeight /
        consumerAgentData.ofmD.fmData.defaultStripeSizeHeight
      let boundary :=
        if dependencyType = DependencyType.Schedule ∧
            (producerPleOp = PleOperation.MAXPOOL_3X3_2_2_EVEN ∨
              producerPleOp = PleOperation.MAXPOOL_3X3_2_2_ODD) ∧
            producerAgentData.pleSD.numStripes.height > 1 then 1 else 0
      pure { dep0 with
        outerRatio := ⟨consumerAgentNumStripes, producerAgentNumStripes⟩,
        innerRatio := ⟨innerOther, 1⟩,
        boundary := boundary }
    | .OFM_STREAMER, _ => Except.error (GenError.assertionFailure "false"))

/-- CascadingCommandStreamGenerator::FillProducerAgentDependency: the switch
followed by the post-processing of the remaining dependency data. -/
def fillProducerAgentDependency (agents : List AgentDescAndDeps) (dep0 : Dependency)
    (consumerAgentType : AgentType) (consumerAgentId : Nat)
    (producerAgentType : AgentType) (producerAgentId : Nat)
    (producerPleOp : PleOperation) (dependencyType : DependencyType) :
    Except GenError Dependency := do
  let dep ← fillProducerAgentDependencySwitch agents dep0 consumerAgentType
    consumerAgentId producerAgentType producerAgentId producerPleOp dependencyType
  pure (fillCalculateRemaining dep)

/-- Modelled from the spec: g_MaxRelativeAgentPosition and the
RelativeAgentIdType are declared in the command-stream headers, which are
not under src/.  Per the spec the relative agent id must fit a fixed, small
range; it is modelled as an 8-bit id with maximum position 255. -/
def g_MaxRelativeAgentPosition : Nat := 255

/-- Wrap-around of the RelativeAgentIdType store (static_cast to the 8-bit
relative id type). -/
def relativeAgentIdCast (n : Nat) : Nat := n % 256

/-- Unsigned 64-bit subtraction as in the C++ (AgentIdType is an unsigned
machine integer, so consumerAgentId - producerAgentId wraps modulo 2^64). -/
def usizeSub (a b : Nat) : Nat :=
  (a + (2 ^ 64 - b % 2 ^ 64)) % 2 ^ 64

/-- Replacing the dependency sets of agent i in the agents vector. -/
def updateAgentDeps (agents : List AgentDescAndDeps) (i : Nat)
    (f : AgentDependencyInfo → AgentDependencyInfo) : List AgentDescAndDeps :=
  agents.set i { agents.getD i defaultAgentDescAndDeps with
    deps := f (agents.getD i defaultAgentDescAndDeps).deps }

/-- CascadingCommandStreamGenerator::AddReadAfterWriteDependency: the
consumer agent creates and owns the dependency.  Note that the new
dependency is pushed unconditionally (there is no relativeAgentId zero
check in this function, unlike the other three Add functions). -/
def addReadAfterWriteDependency (agents : List AgentDescAndDeps)
    (consumerAgentType : AgentType) (consumerAgentId : Nat)
    (producerAgentType : AgentType) (producerAgentId : Nat)
    (producerPleOp : PleOperation) : Except GenError (List AgentDescAndDeps) := do
  let relativeAgentId := usizeSub consumerAgentId producerAgentId
  assertThat (relativeAgentId ≤ g_MaxRelativeAgentPosition)
    "relativeAgentId within g_MaxRelativeAgentPosition"
  let newDependency :=
    { Dependency.zeroed with relativeAgentId := relativeAgentIdCast relativeAgentId }
  let d ← fillConsumerAgentDependency agents newDependency consumerAgentType
    consumerAgentId producerAgentType producerAgentId producerPleOp
  pure (updateAgentDeps agents consumerAgentId (fun deps =>
    { deps with readDependencies := deps.readDependencies ++ [d] }))

/-- CascadingCommandStreamGenerator::AddSramOverlapDependency: like the
Read-After-Write variant but a zero relative id is not stored. -/
def addSramOverlapDependency (agents : List AgentDescAndDeps)
    (consumerAgentType : AgentType) (consumerAgentId : Nat)
    (producerAgentType : AgentType) (producerAgentId : Nat)
    (producerPleOp : PleOperation) : Except GenError (List AgentDescAndDeps) := do
  let relativeAgentId := usizeSub consumerAgentId producerAgentId
  assertThat (relativeAgentId ≤ g_MaxRelativeAgentPosition)
    "relativeAgentId within g_MaxRelativeAgentPosition"
  let newDependency :=
    { Dependency.zeroed with relativeAgentId := relativeAgentIdCast relativeAgentId }
  let d ← fillConsumerAgentDependency agents newDependency consumerAgentType
    consumerAgentId producerAgentType producerAgentId producerPleOp
  if d.relativeAgentId ≠ 0 then
    pure (updateAgentDeps agents consumerAgentId (fun deps =>
      { deps with readDependencies := deps.readDependencies ++ [d] }))
  else
    pure agents

/-- CascadingCommandStreamGenerator::AddWriteAfterReadDependency: the last
consumer agent creates the dependency and assigns it to the producer agent;
a zero relative id is not stored. -/
def addWriteAfterReadDependency (agents : List AgentDescAndDeps)
    (consumerAgentType : AgentType) (consumerAgentId : Nat)
    (producerAgentType : AgentType) (producerAgentId : Nat)
    (producerPleOp : PleOperation) : Except GenError (List AgentDescAndDeps) := do
  let relativeAgentId := usizeSub consumerAgentId producerAgentId
  assertThat (relativeAgentId ≤ g_MaxRelativeAgentPosition)
    "relativeAgentId within g_MaxRelativeAgentPosition"
  let newDependency :=
    { Dependency.zeroed with relativeAgentId := relativeAgentIdCast relativeAgentId }
  let d ← fillProducerAgentDependency agents newDependency consumerAgentType
    consumerAgentId producerAgentType producerAgentId producerPleOp DependencyType.Write
  if d.relativeAgentId ≠ 0 then
    pure (updateAgentDeps agents producerAgentId (fun deps =>
      { deps with writeDependencies := deps.writeDependencies ++ [d] }))
  else
    pure agents

/-- CascadingCommandStreamGenerator::AddScheduleTimeDependency: the first
consumer agent creates the dependency and assigns it to the producer agent;
a zero relative id is not stored. -/
def addScheduleTimeDependency (agents : List AgentDescAndDeps)
    (consumerAgentType : AgentType) (consumerAgentId : Nat)
    (producerAgentType : AgentType) (producerAgentId : Nat)
    (producerPleOp : PleOperation) : Except GenError (List AgentDescAndDeps) := do
  let relativeAgentId := usizeSub consumerAgentId producerAgentId
  assertThat (relativeAgentId ≤ g_MaxRelativeAgentPosition)
    "relativeAgentId within g_MaxRelativeAgentPosition"
  let newDependency :=
    { Dependency.zeroed with relativeAgentId := relativeAgentIdCast relativeAgentId }
  let d ← fillProducerAgentDependency agents newDependency consumerAgentType
    consumerAgentId producerAgentType producerAgentId producerPleOp DependencyType.Schedule
  if d.relativeAgentId ≠ 0 then
    pure (updateAgentDeps agents producerAgentId (fun deps =>
      { deps with scheduleDependencies := deps.scheduleDependencies ++ [d] }))
  else
    pure agents

/-! Operation graph model: the planned graph handed to the generator.
Ops and buffers are referenced by their index in the graph lists. -/

/-- Location of a buffer. -/
inductive Location where
  | Dram
  | Sram
  | PleInputSram
  deriving DecidableEq, Repr

/-- CascadingBufferFormat (the generator only branches on WEIGHT vs rest). -/
inductive CascadingBufferFormat where
  | NHWCB
  | NHWC
  | WEIGHT
  | FCAF_DEEP
  | FCAF_WIDE
  deriving DecidableEq, Repr

/-- BufferType of a DRAM buffer. -/
inductive BufferType where
  | Input
  | Output
  | Intermediate
  | ConstantDma
  deriving DecidableEq, Repr

/-- TensorShape: the H, W and C extents (the batch extent is never split
into stripes and is not modelled). -/
structure TensorShape where
  height : Nat
  width : Nat
  channels : Nat
  deriving DecidableEq, Repr

/-- Modelled from the spec: utils::GetNumStripesTotal (utility header not
under src/).  The stripe grid is the per-axis rounded-up division of the
tensor shape by the stripe shape; the total is its size. -/
def GetNumStripesTotal (tensor stripe : TensorShape) : Nat :=
  DivRoundUp tensor.height stripe.height * DivRoundUp tensor.width stripe.width *
    DivRoundUp tensor.channels stripe.channels

/-- A buffer of the operation graph, carrying the metadata the generator
reads.  DRAM-only fields (bufferType) are none for on-chip buffers;
SRAM-only fields (stripe shape, numLoads, packed boundary) are ignored for
DRAM buffers. -/
structure BufferDesc where
  location : Location
  format : CascadingBufferFormat
  bufferType : Option BufferType
  tensorShape : TensorShape
  stripeShape : TensorShape
  numLoads : Nat
  packedBoundaryRight : Nat
  packedBoundaryBottom : Nat
  deriving DecidableEq, Repr

/-- Out-of-range buffer access placeholder (undefined behaviour in the
C++; theorems use in-range indices). -/
def defaultBufferDesc : BufferDesc :=
  ⟨Location.Dram, CascadingBufferFormat.NHWCB, none, ⟨1, 1, 1⟩, ⟨1, 1, 1⟩, 1, 0, 0⟩

/-- Modelled from the spec: Buffer::IsFullTensor is declared outside src/.
A DRAM buffer holds the whole tensor; an on-chip buffer is a full-tensor
buffer when its stripe grid collapses to a single stripe. -/
def BufferDesc.isFullTensor (b : BufferDesc) : Bool :=
  b.location = Location.Dram ∨ GetNumStripesTotal b.tensorShape b.stripeShape = 1

/-- MceOp: the fields of the planned MCE operation the generator reads. -/
structure MceOpDesc where
  op : MceOperation
  inputStripeShape : TensorShape
  outputStripeShape : TensorShape
  deriving DecidableEq, Repr

/-- PleOp: the fields of the planned PLE operation the generator reads. -/
structure PleOpDesc where
  op : PleOperation
  loadKernel : Bool
  pleKernelId : Nat
  outputStripeShape : TensorShape
  deriving DecidableEq, Repr

/-- An operation of the graph: memory transfer (DmaOp), compute (MceOp) or
activation (PleOp).  Op kinds the generator does not support are not
modelled (they raise NotSupportedException immediately). -/
inductive OpDesc where
  | dma
  | mce (m : MceOpDesc)
  | ple (p : PleOpDesc)
  deriving DecidableEq, Repr

/-- IsObjectOfType DmaOp. -/
def OpDesc.isDma : OpDesc → Bool
  | .dma => true
  | _ => false

/-- IsObjectOfType MceOp. -/
def OpDesc.isMce : OpDesc → Bool
  | .mce _ => true
  | _ => false

/-- IsObjectOfType PleOp. -/
def OpDesc.isPle : OpDesc → Bool
  | .ple _ => true
  | _ => false

/-- Downcast to MceOp (static_cast in the C++; only reached after the
IsObjectOfType guard, the default is never used on modelled paths). -/
def OpDesc.mceOp : OpDesc → MceOpDesc
  | .mce m => m
  | _ => ⟨MceOperation.CONVOLUTION, ⟨1, 1, 1⟩, ⟨1, 1, 1⟩⟩

/-- Downcast to PleOp (static_cast in the C++). -/
def OpDesc.pleOp : OpDesc → PleOpDesc
  | .ple p => p
  | _ => ⟨PleOperation.PASSTHROUGH, false, 0, ⟨1, 1, 1⟩⟩

/-- The merged operation graph: ops in execution order, buffers, and the
input/output buffer indices of every op. -/
structure OpGraph where
  ops : List OpDesc
  buffers : List BufferDesc
  opInputs : List (List Nat)
  opOutputs : List (Option Nat)
  deriving DecidableEq, Repr

/-- The op at an index. -/
def OpGraph.op (g : OpGraph) (i : Nat) : OpDesc := g.ops.getD i OpDesc.dma

/-- The buffer at an index. -/
def OpGraph.buffer (g : OpGraph) (b : Nat) : BufferDesc :=
  g.buffers.getD b defaultBufferDesc

/-- OpGraph::GetInputs. -/
def OpGraph.inputsOf (g : OpGraph) (i : Nat) : List Nat := g.opInputs.getD i []

/-- OpGraph::GetOutput (an op has at most one output buffer). -/
def OpGraph.outputOf (g : OpGraph) (i : Nat) : Option Nat := g.opOutputs.getD i none

/-- OpGraph::GetConsumers: the ops (in graph order) reading the buffer. -/
def OpGraph.consumersOf (g : OpGraph) (b : Nat) : List Nat :=
  (List.range g.ops.length).filter (fun i => b ∈ g.inputsOf i)

/-- OpGraph::GetProducers: the ops (in graph order) writing the buffer. -/
def OpGraph.producersOf (g : OpGraph) (b : Nat) : List Nat :=
  (List.range g.ops.length).filter (fun i => g.outputOf i = some b)

/-- OpGraph::GetSingleProducer: the unique producer of the buffer (the C++
asserts there is exactly one). -/
def OpGraph.getSingleProducer (g : OpGraph) (b : Nat) : Except GenError Nat :=
  match g.producersOf b with
  | [p] => pure p
  | _ => Except.error (GenError.assertionFailure "buffer has a single producer")

/-- The PleOperation of an op (the C++ static_casts the producer op to
PleOp in the arms where it is one; PASSTHROUGH stands for the unused
default). -/
def OpGraph.pleOpKind (g : OpGraph) (i : Nat) : PleOperation := (g.op i).pleOp.op

/-! Generator state: the growing agent list and the single-pass maps. -/

/-- Association-list lookup (std::map/unordered_map find). -/
def assocLookup (l : List (Nat × Nat)) (k : Nat) : Option Nat :=
  (l.find? (fun p => p.1 = k)).map (fun p => p.2)

/-- std::map::at: throws when the key is missing. -/
def lookupAt (l : List (Nat × Nat)) (k : Nat) : Except GenError Nat :=
  match assocLookup l k with
  | some v => pure v
  | none => Except.error (GenError.assertionFailure "map key present")

/-- std::map::operator[]: a missing key reads as a value-initialized (zero)
entry.  (On the generator's call paths the key is always present.) -/
def lookupBracket (l : List (Nat × Nat)) (k : Nat) : Nat := (assocLookup l k).getD 0

/-- The mutable state of CascadingCommandStreamGenerator during Generate:
the agent vector, the op-to-agent and kernel-to-loader maps, the three
fence op pointers (op indices here) and the DRAM buffer id bookkeeping of
the buffer manager (modelled as a counter). -/
structure GenState where
  agents : List AgentDescAndDeps
  opToAgentId : List (Nat × Nat)
  pleKernelToPleLoaderAgentId : List (Nat × Nat)
  fenceOpForIfmS : Option Nat
  fenceOpForPleL : Option Nat
  fenceOpForWgtS : Option Nat
  dramBufToBufId : List (Nat × Nat)
  nextBufferId : Nat
  deriving DecidableEq, Repr

/-- The constructor's initial state. -/
def GenState.initial : GenState := ⟨[], [], [], none, none, none, [], 0⟩

/-- CascadingCommandStreamGenerator::AddDramBufferAndCacheId: buffers are
not added twice; a new DRAM buffer gets the next buffer-manager id (the
manager's per-type bookkeeping is not modelled beyond the id). -/
def addDramBufferAndCacheId (st : GenState) (bufIdx : Nat) : GenState :=
  match assocLookup st.dramBufToBufId bufIdx with
  | some _ => st
  | none =>
    { st with
      dramBufToBufId := st.dramBufToBufId ++ [(bufIdx, st.nextBufferId)],
      nextBufferId := st.nextBufferId + 1 }

/-- CascadingCommandStreamGenerator::AddIfmStreamerToCommandStream.  The
stripe grid (StreamersUtils::SetStripe*Info, declared outside src/) is
modelled from the spec as the per-axis rounded-up division; the packed
boundary adjustment of the edge stripes is from the source. -/
def addIfmStreamerToCommandStream (st : GenState) (opIdx : Nat)
    (inputSramBuffer : BufferDesc)
    (isExtraIfmStripeAtRightEdge isExtraIfmStripeAtBottomEdge : Bool) :
    GenState × Nat :=
  let w := DivRoundUp inputSramBuffer.tensorShape.width inputSramBuffer.stripeShape.width
  let h := DivRoundUp inputSramBuffer.tensorShape.height inputSramBuffer.stripeShape.height
  let c := DivRoundUp inputSramBuffer.tensorShape.channels inputSramBuffer.stripeShape.channels
  let w := if isExtraIfmStripeAtRightEdge ∧ inputSramBuffer.packedBoundaryRight > 0 then
    w - 1 else w
  let h := if isExtraIfmStripeAtBottomEdge ∧ inputSramBuffer.packedBoundaryBottom > 0 then
    h - 1 else h
  let numStripesTotal := w * h * c * inputSramBuffer.numLoads
  let agent : AgentDescAndDeps :=
    ⟨⟨numStripesTotal, AgentData.ifm ⟨⟨⟨w, h, c⟩, inputSramBuffer.stripeShape.height⟩⟩⟩,
      AgentDependencyInfo.empty⟩
  let agentId := st.agents.length
  ({ st with
      agents := st.agents ++ [agent],
      opToAgentId := st.opToAgentId ++ [(opIdx, agentId)] }, agentId)

/-- CascadingCommandStreamGenerator::AddWeightStreamerToCommandStream
(stripe counts per utils::GetNumStripesC / GetNumStripesTotal, modelled
from the spec as rounded-up divisions). -/
def addWeightStreamerToCommandStream (st : GenState) (opIdx : Nat)
    (weightsSramBuffer ifmBuffer ofmBuffer : BufferDesc) : GenState × Nat :=
  let ifmCh := DivRoundUp ifmBuffer.tensorShape.channels ifmBuffer.stripeShape.channels
  let ofmCh := DivRoundUp ofmBuffer.tensorShape.channels ofmBuffer.stripeShape.channels
  let numStripesTotal :=
    GetNumStripesTotal weightsSramBuffer.tensorShape weightsSramBuffer.stripeShape *
      weightsSramBuffer.numLoads
  let agent : AgentDescAndDeps :=
    ⟨⟨numStripesTotal, AgentData.wgt ⟨⟨ifmCh, ofmCh⟩⟩⟩, AgentDependencyInfo.empty⟩
  let agentId := st.agents.length
  ({ st with
      agents := st.agents ++ [agent],
      opToAgentId := st.opToAgentId ++ [(opIdx, agentId)] }, agentId)

/-- CascadingCommandStreamGenerator::AddMceSchedulerToCommandStream
(stripe counts per MceSUtils::SetMces*StripeInfo, modelled from the spec
as rounded-up divisions of the output tensor by the output stripe shape
and of the input channels by the input stripe channels). -/
def addMceSchedulerToCommandStream (st : GenState) (opIdx : Nat)
    (inputBuffer outputBuffer : BufferDesc) (mceOp : MceOpDesc) : GenState × Nat :=
  let ofmH := DivRoundUp outputBuffer.tensorShape.height mceOp.outputStripeShape.height
  let ofmW := DivRoundUp outputBuffer.tensorShape.width mceOp.outputStripeShape.width
  let ofmC := DivRoundUp outputBuffer.tensorShape.channels mceOp.outputStripeShape.channels
  let ifmC := DivRoundUp inputBuffer.tensorShape.channels inputBuffer.stripeShape.channels
  let numStripesTotal := ifmC * ofmC * ofmW * ofmH
  let agent : AgentDescAndDeps :=
    ⟨⟨numStripesTotal, AgentData.mce ⟨⟨ofmH, ofmW, ofmC, ifmC⟩, mceOp.op⟩⟩,
      AgentDependencyInfo.empty⟩
  let agentId := st.agents.length
  ({ st with
      agents := st.agents ++ [agent],
      opToAgentId := st.opToAgentId ++ [(opIdx, agentId)] }, agentId)

/-- CascadingCommandStreamGenerator::AddPleLoaderToCommandStream: a PLE
kernel loader agent always has numStripesTotal = 1; it is keyed by its
kernel id (not by an op) in m_PleKernelToPleLoaderAgentIdMapping. -/
def addPleLoaderToCommandStream (st : GenState) (pleOp : PleOpDesc) : GenState × Nat :=
  let numStripesTotal := 1
  let agent : AgentDescAndDeps :=
    ⟨⟨numStripesTotal, AgentData.pleL ⟨pleOp.pleKernelId⟩⟩, AgentDependencyInfo.empty⟩
  let agentId := st.agents.length
  ({ st with
      agents := st.agents ++ [agent],
      pleKernelToPleLoaderAgentId :=
        st.pleKernelToPleLoaderAgentId ++ [(pleOp.pleKernelId, agentId)] }, agentId)

/-- CascadingCommandStreamGenerator::AddPleSchedulerToCommandStream
(stripe counts per PleSUtils::SetPles*StripeInfo, modelled from the spec
as rounded-up divisions of the output tensor by the PLE output stripe). -/
def addPleSchedulerToCommandStream (st : GenState) (opIdx : Nat)
    (outputBuffer : BufferDesc) (pleOp : PleOpDesc) : GenState × Nat :=
  let h := DivRoundUp outputBuffer.tensorShape.height pleOp.outputStripeShape.height
  let w := DivRoundUp outputBuffer.tensorShape.width pleOp.outputStripeShape.width
  let c := DivRoundUp outputBuffer.tensorShape.channels pleOp.outputStripeShape.channels
  let numStripesTotal := GetNumStripesTotal outputBuffer.tensorShape pleOp.outputStripeShape
  let agent : AgentDescAndDeps :=
    ⟨⟨numStripesTotal, AgentData.pleS ⟨⟨h, w, c⟩, pleOp.outputStripeShape.height⟩⟩,
      AgentDependencyInfo.empty⟩
  let agentId := st.agents.length
  ({ st with
      agents := st.agents ++ [agent],
      opToAgentId := st.opToAgentId ++ [(opIdx, agentId)] }, agentId)

/-- CascadingCommandStreamGenerator::AddOfmStreamerToCommandStream (stripe
counts from the SRAM source buffer). -/
def addOfmStreamerToCommandStream (st : GenState) (opIdx : Nat)
    (outputSramBuffer : BufferDesc) : GenState × Nat :=
  let w := DivRoundUp outputSramBuffer.tensorShape.width outputSramBuffer.stripeShape.width
  let h := DivRoundUp outputSramBuffer.tensorShape.height outputSramBuffer.stripeShape.height
  let c := DivRoundUp outputSramBuffer.tensorShape.channels outputSramBuffer.stripeShape.channels
  let numStripesTotal :=
    GetNumStripesTotal outputSramBuffer.tensorShape outputSramBuffer.stripeShape
  let agent : AgentDescAndDeps :=
    ⟨⟨numStripesTotal, AgentData.ofm ⟨⟨⟨w, h, c⟩, outputSramBuffer.stripeShape.height⟩⟩⟩,
      AgentDependencyInfo.empty⟩
  let agentId := st.agents.length
  ({ st with
      agents := st.agents ++ [agent],
      opToAgentId := st.opToAgentId ++ [(opIdx, agentId)] }, agentId)

/-! The conservative fence blocks of ProcessDmaOp / ProcessMceOp /
ProcessPleOp: when the per-type fence op marker is set, the newly created
agent records a pessimistic Read-After-Write edge against the fence op
agent and the marker is cleared. -/

/-- The IfmS fence block of ProcessDmaOp (src lines 365-374). -/
def applyIfmSFence (g : OpGraph) (st : GenState) (ifmStreamerAgentId : Nat) :
    Except GenError GenState :=
  match st.fenceOpForIfmS with
  | none => pure st
  | some f => do
    let fenceAgentId ← lookupAt st.opToAgentId f
    let agents ← addReadAfterWriteDependency st.agents AgentType.IFM_STREAMER
      ifmStreamerAgentId
      ((st.agents.getD fenceAgentId defaultAgentDescAndDeps).agent.data.agentType)
      fenceAgentId (g.pleOpKind f)
    pure { st with agents := agents, fenceOpForIfmS := none }

/-- The WgtS fence block of ProcessDmaOp (src lines 381-390). -/
def applyWgtSFence (g : OpGraph) (st : GenState) (weightStreamerAgentId : Nat) :
    Except GenError GenState :=
  match st.fenceOpForWgtS with
  | none => pure st
  | some f => do
    let fenceAgentId ← lookupAt st.opToAgentId f
    let agents ← addReadAfterWriteDependency st.agents AgentType.WGT_STREAMER
      weightStreamerAgentId
      ((st.agents.getD fenceAgentId defaultAgentDescAndDeps).agent.data.agentType)
      fenceAgentId (g.pleOpKind f)
    pure { st with agents := agents, fenceOpForWgtS := none }

/-- The PleL fence block of ProcessMceOp / ProcessPleOp (src lines 504-513
and 632-641). -/
def applyPleLFence (g : OpGraph) (st : GenState) (pleLoaderAgentId : Nat) :
    Except GenError GenState :=
  match st.fenceOpForPleL with
  | none => pure st
  | some f => do
    let fenceAgentId ← lookupAt st.opToAgentId f
    let agents ← addReadAfterWriteDependency st.agents AgentType.PLE_LOADER
      pleLoaderAgentId
      ((st.agents.getD fenceAgentId defaultAgentDescAndDeps).agent.data.agentType)
      fenceAgentId (g.pleOpKind f)
    pure { st with agents := agents, fenceOpForPleL := none }

/-- CascadingCommandStreamGenerator::ProcessDmaOp: a DRAM-to-SRAM
transfer creates an IFM streamer (general data) or a weight streamer
(WEIGHT format); an SRAM-to-DRAM transfer creates an OFM streamer and the
producer-side dependencies. -/
def processDmaOp (g : OpGraph) (st : GenState) (opIdx : Nat) :
    Except GenError GenState := do
  let inputs := g.inputsOf opIdx
  let inputBufferIdx := inputs.getD 0 0
  let inputBuffer := g.buffer inputBufferIdx
  assertThat (inputs.length == 1) "dma op has one input"
  let outputBufferIdx? := g.outputOf opIdx
  assertThat outputBufferIdx?.isSome "dma op has an output"
  let outputBufferIdx := outputBufferIdx?.getD 0
  let outputBuffer := g.buffer outputBufferIdx
  if inputBuffer.location = Location.Dram ∧ outputBuffer.location = Location.Sram then do
    assertThat inputBuffer.bufferType.isSome "dram input buffer has a type"
    if inputBuffer.format ≠ CascadingBufferFormat.WEIGHT then do
      assertThat (inputBuffer.bufferType = some BufferType.Intermediate ∨
        inputBuffer.bufferType = some BufferType.Input ∨
        inputBuffer.bufferType = some BufferType.ConstantDma)
        "dram input buffer type is intermediate, input or constant"
      let st := addDramBufferAndCacheId st inputBufferIdx
      let consumers := g.consumersOf outputBufferIdx
      assertThat (consumers.length == 1) "sram buffer has one consumer"
      let consumer0 := consumers.getD 0 0
      let isExtraIfmStripeAtRightEdge :=
        (g.op consumer0).isMce ∧
          DivRoundUp outputBuffer.tensorShape.width
              (g.op consumer0).mceOp.inputStripeShape.width >
            DivRoundUp (g.buffer ((g.outputOf consumer0).getD 0)).tensorShape.width
              (g.op consumer0).mceOp.outputStripeShape.width
      let isExtraIfmStripeAtBottomEdge :=
        (g.op consumer0).isMce ∧
          DivRoundUp outputBuffer.tensorShape.height
              (g.op consumer0).mceOp.inputStripeShape.height >
            DivRoundUp (g.buffer ((g.outputOf consumer0).getD 0)).tensorShape.height
              (g.op consumer0).mceOp.outputStripeShape.height
      let (st, ifmStreamerAgentId) := addIfmStreamerToCommandStream st opIdx
        outputBuffer isExtraIfmStripeAtRightEdge isExtraIfmStripeAtBottomEdge
      applyIfmSFence g st ifmStreamerAgentId
    else do
      -- Weight Streamer Agent
      let weightsSramBuffer := outputBuffer
      let weightConsumers := g.consumersOf outputBufferIdx
      let weightBufferConsumer := weightConsumers.getD 0 0
      assertThat (weightConsumers.length ≠ 0 ∧ (g.op weightBufferConsumer).isMce)
        "weight buffer consumer is an mce op"
      let ifmBuffer := g.buffer ((g.inputsOf weightBufferConsumer).getD 0 0)
      let ofmBuffer := g.buffer ((g.outputOf weightBufferConsumer).getD 0)
      let (st, weightStreamerAgentId) := addWeightStreamerToCommandStream st opIdx
        weightsSramBuffer ifmBuffer ofmBuffer
      applyWgtSFence g st weightStreamerAgentId
  else if inputBuffer.location = Location.Sram ∧ outputBuffer.location = Location.Dram
  then do
    assertThat outputBuffer.bufferType.isSome "dram output buffer has a type"
    let producerOp ← g.getSingleProducer inputBufferIdx
    assertThat ((g.op producerOp).isPle ∨ (g.op producerOp).isDma)
      "ofm producer is a ple or dma op"
    let producerAgentType := if (g.op producerOp).isPle then AgentType.PLE_SCHEDULER
      else AgentType.IFM_STREAMER
    -- Buffers are not added to the buffer manager multiple times
    let st := addDramBufferAndCacheId st outputBufferIdx
    let (st, ofmStreamerAgentId) := addOfmStreamerToCommandStream st opIdx inputBuffer
    let producerAgentId := lookupBracket st.opToAgentId producerOp
    let agents ← addReadAfterWriteDependency st.agents AgentType.OFM_STREAMER
      ofmStreamerAgentId producerAgentType producerAgentId (g.pleOpKind producerOp)
    let agents ← addWriteAfterReadDependency agents AgentType.OFM_STREAMER
      ofmStreamerAgentId producerAgentType producerAgentId (g.pleOpKind producerOp)
    let agents ← addScheduleTimeDependency agents AgentType.OFM_STREAMER
      ofmStreamerAgentId producerAgentType producerAgentId (g.pleOpKind producerOp)
    pure { st with agents := agents }
  else
    Except.error (GenError.assertionFailure "dma op moves dram to sram or sram to dram")

/-- CascadingCommandStreamGenerator::ProcessMceOp. -/
def processMceOp (g : OpGraph) (st : GenState) (opIdx : Nat) :
    Except GenError GenState := do
  let inputs := g.inputsOf opIdx
  assertThat (inputs.length == 2) "mce op has two inputs"
  let ifmBufferIdx := inputs.getD 0 0
  let wgtBufferIdx := inputs.getD 1 0
  let producerOp ← g.getSingleProducer ifmBufferIdx
  let producerAgentType := if (g.op producerOp).isPle then AgentType.PLE_SCHEDULER
    else AgentType.IFM_STREAMER
  let outputBufferIdx? := g.outputOf opIdx
  assertThat outputBufferIdx?.isSome "mce op has an output"
  let outputBufferIdx := outputBufferIdx?.getD 0
  -- Ple Loader Agent
  let consumers := g.consumersOf outputBufferIdx
  let mceOpConsumer := consumers.getD 0 0
  assertThat (consumers.length ≠ 0 ∧ (g.op mceOpConsumer).isPle)
    "mce op consumer is a ple op"
  let ptrPleOp := (g.op mceOpConsumer).pleOp
  let (st, pleLoaderAgentId) ← (if ptrPleOp.loadKernel then do
      let (st, pleLoaderAgentId) := addPleLoaderToCommandStream st ptrPleOp
      let st ← applyPleLFence g st pleLoaderAgentId
      pure (st, pleLoaderAgentId)
    else
      pure (st, 0))
  -- MCE Scheduler Agent
  let (st, mceSchedulerAgentId) := addMceSchedulerToCommandStream st opIdx
    (g.buffer ifmBufferIdx) (g.buffer outputBufferIdx) (g.op opIdx).mceOp
  let producerAgentId := lookupBracket st.opToAgentId producerOp
  let agents ← addReadAfterWriteDependency st.agents AgentType.MCE_SCHEDULER
    mceSchedulerAgentId producerAgentType producerAgentId (g.pleOpKind producerOp)
  let wgtDmaOp ← g.getSingleProducer wgtBufferIdx
  let wgtAgentId := lookupBracket st.opToAgentId wgtDmaOp
  let agents ← addReadAfterWriteDependency agents AgentType.MCE_SCHEDULER
    mceSchedulerAgentId AgentType.WGT_STREAMER wgtAgentId (g.pleOpKind wgtDmaOp)
  let agents ← addWriteAfterReadDependency agents AgentType.MCE_SCHEDULER
    mceSchedulerAgentId producerAgentType producerAgentId (g.pleOpKind producerOp)
  let agents ← addWriteAfterReadDependency agents AgentType.MCE_SCHEDULER
    mceSchedulerAgentId AgentType.WGT_STREAMER wgtAgentId (g.pleOpKind wgtDmaOp)
  let agents ← addScheduleTimeDependency agents AgentType.MCE_SCHEDULER
    mceSchedulerAgentId producerAgentType producerAgentId (g.pleOpKind producerOp)
  let agents ← addScheduleTimeDependency agents AgentType.MCE_SCHEDULER
    mceSchedulerAgentId AgentType.WGT_STREAMER wgtAgentId (g.pleOpKind wgtDmaOp)
  let agents ← (if ptrPleOp.loadKernel then
      addScheduleTimeDependency agents AgentType.MCE_SCHEDULER mceSchedulerAgentId
        AgentType.PLE_LOADER pleLoaderAgentId PleOperation.PASSTHROUGH
    else
      pure agents)
  pure { st with agents := agents }

/-- CascadingCommandStreamGenerator::ProcessPleOp. -/
def processPleOp (g : OpGraph) (st : GenState) (opIdx : Nat) :
    Except GenError GenState := do
  let inputs := g.inputsOf opIdx
  assertThat (inputs.length == 1 ∨ inputs.length == 2) "ple op has one or two inputs"
  let outputBufferIdx? := g.outputOf opIdx
  assertThat outputBufferIdx?.isSome "ple op has an output"
  let outputBuffer := g.buffer (outputBufferIdx?.getD 0)
  let input0BufferIdx := inputs.getD 0 0
  let input0Buffer := g.buffer input0BufferIdx
  -- Determine whether the ple op is standalone or fused
  let isStandAlonePle ← (if input0Buffer.location = Location.PleInputSram then
      pure false
    else if input0Buffer.location = Location.Sram then
      pure true
    else
      Except.error (GenError.assertionFailure "ple input is in sram or ple input sram"))
  let input0Producer ← g.getSingleProducer input0BufferIdx
  let input1Producer? ← (if inputs.length == 2 then do
      let p ← g.getSingleProducer (inputs.getD 1 0)
      pure (some p)
    else
      pure none)
  let loadKernel := (g.op opIdx).pleOp.loadKernel
  if isStandAlonePle then do
    let (st, pleLoaderAgentId) := (if loadKernel then
        addPleLoaderToCommandStream st (g.op opIdx).pleOp
      else
        (st, 0))
    let (st, pleSchedulerAgentId) := addPleSchedulerToCommandStream st opIdx
      outputBuffer (g.op opIdx).pleOp
    let input0AgentId := lookupBracket st.opToAgentId input0Producer
    let input0AgentType :=
      (st.agents.getD input0AgentId defaultAgentDescAndDeps).agent.data.agentType
    let agents ← addReadAfterWriteDependency st.agents AgentType.PLE_SCHEDULER
      pleSchedulerAgentId input0AgentType input0AgentId (g.pleOpKind input0Producer)
    let agents ← (match input1Producer? with
      | some input1Producer => do
        let input1AgentId := lookupBracket st.opToAgentId input1Producer
        let input1AgentType :=
          (st.agents.getD input1AgentId defaultAgentDescAndDeps).agent.data.agentType
        addReadAfterWriteDependency agents AgentType.PLE_SCHEDULER
          pleSchedulerAgentId input1AgentType input1AgentId (g.pleOpKind input1Producer)
      | none => pure agents)
    let st := { st with agents := agents }
    let st ← (if loadKernel then do
        let kernelLoaderAgentId :=
          lookupBracket st.pleKernelToPleLoaderAgentId (g.op opIdx).pleOp.pleKernelId
        let agents ← addReadAfterWriteDependency st.agents AgentType.PLE_SCHEDULER
          pleSchedulerAgentId AgentType.PLE_LOADER kernelLoaderAgentId
          PleOperation.PASSTHROUGH
        applyPleLFence g { st with agents := agents } pleLoaderAgentId
      else
        pure st)
    let agents ← addWriteAfterReadDependency st.agents AgentType.PLE_SCHEDULER
      pleSchedulerAgentId input0AgentType input0AgentId (g.pleOpKind input0Producer)
    let agents ← addScheduleTimeDependency agents AgentType.PLE_SCHEDULER
      pleSchedulerAgentId input0AgentType input0AgentId (g.pleOpKind input0Producer)
    let agents ← (match input1Producer? with
      | some input1Producer => do
        let input1AgentId := lookupBracket st.opToAgentId input1Producer
        let input1AgentType :=
          (st.agents.getD input1AgentId defaultAgentDescAndDeps).agent.data.agentType
        let agents ← addWriteAfterReadDependency agents AgentType.PLE_SCHEDULER
          pleSchedulerAgentId input1AgentType input1AgentId (g.pleOpKind input1Producer)
        addScheduleTimeDependency agents AgentType.PLE_SCHEDULER
          pleSchedulerAgentId input1AgentType input1AgentId (g.pleOpKind input1Producer)
      | none => pure agents)
    let agents ← (if loadKernel then
        addScheduleTimeDependency agents AgentType.PLE_SCHEDULER pleSchedulerAgentId
          AgentType.PLE_LOADER pleLoaderAgentId PleOperation.PASSTHROUGH
      else
        pure agents)
    pure { st with agents := agents }
  else do
    let (st, pleSchedulerAgentId) := addPleSchedulerToCommandStream st opIdx
      outputBuffer (g.op opIdx).pleOp
    let input0AgentId := lookupBracket st.opToAgentId input0Producer
    let agents ← addReadAfterWriteDependency st.agents AgentType.PLE_SCHEDULER
      pleSchedulerAgentId AgentType.MCE_SCHEDULER input0AgentId
      (g.pleOpKind input0Producer)
    let agents ← (if loadKernel then do
        let kernelLoaderAgentId :=
          lookupBracket st.pleKernelToPleLoaderAgentId (g.op opIdx).pleOp.pleKernelId
        addReadAfterWriteDependency agents AgentType.PLE_SCHEDULER
          pleSchedulerAgentId AgentType.PLE_LOADER kernelLoaderAgentId
          PleOperation.PASSTHROUGH
      else
        pure agents)
    let agents ← addScheduleTimeDependency agents AgentType.PLE_SCHEDULER
      pleSchedulerAgentId AgentType.MCE_SCHEDULER input0AgentId
      (g.pleOpKind input0Producer)
    pure { st with agents := agents }

/-- The op-kind dispatch of the Generate loop (the if/else chain on
IsObjectOfType; other op kinds raise NotSupportedException and are not
modelled). -/
def processOp (g : OpGraph) (st : GenState) (opIdx : Nat) :
    Except GenError GenState :=
  match g.op opIdx with
  | OpDesc.dma => processDmaOp g st opIdx
  | OpDesc.mce _ => processMceOp g st opIdx
  | OpDesc.ple _ => processPleOp g st opIdx

/-- One iteration of the Generate loop: dispatch on the op kind, then
update the three fence markers when the op produced a full-tensor result
that is not a DMA transfer into SRAM. -/
def generateStep (g : OpGraph) (st : GenState) (opIdx : Nat) :
    Except GenError GenState := do
  let st ← processOp g st opIdx
  match g.outputOf opIdx with
  | some producedBufferIdx =>
    let producedBuffer := g.buffer producedBufferIdx
    if producedBuffer.isFullTensor ∧
        ¬((g.op opIdx).isDma ∧ producedBuffer.location = Location.Sram) then
      pure { st with
        fenceOpForIfmS := some opIdx,
        fenceOpForPleL := some opIdx,
        fenceOpForWgtS := some opIdx }
    else
      pure st
  | none => pure st

/-- CascadingCommandStreamGenerator::Generate, up to and including the
dependency-building pass over the operation graph (the later scheduling,
register generation and serialization stages consume the state produced
here). -/
def generate (g : OpGraph) : Except GenError GenState := do
  assertThat (g.ops.length ≠ 0) "op graph is not empty"
  (List.range g.ops.length).foldlM (generateStep g) GenState.initial

/-! A small concrete operation graph used to exercise the generator
end-to-end: two input loads back-to-back after a full-tensor store. -/

/-- An SRAM feature-map buffer of an 8x8x16 tensor with the given stripe
height. -/
def exampleSramBuffer (stripeHeight : Nat) : BufferDesc :=
  ⟨Location.Sram, CascadingBufferFormat.NHWCB, none, ⟨8, 8, 16⟩,
    ⟨stripeHeight, 8, 16⟩, 1, 0, 0⟩

/-- A DRAM buffer of an 8x8x16 tensor with the given buffer type. -/
def exampleDramBuffer (t : BufferType) : BufferDesc :=
  ⟨Location.Dram, CascadingBufferFormat.NHWCB, some t, ⟨8, 8, 16⟩, ⟨8, 8, 16⟩, 1, 0, 0⟩

/-- The fence scenario graph: op 0 loads an input to SRAM, op 1 stores it
back to DRAM as a full-tensor output (a fence op), ops 2 and 3 load two
further inputs to SRAM, and op 4 is a standalone two-input PLE operation
consuming them. -/
def fenceExampleGraph : OpGraph :=
  { ops := [OpDesc.dma, OpDesc.dma, OpDesc.dma, OpDesc.dma,
      OpDesc.ple ⟨PleOperation.PASSTHROUGH, false, 0, ⟨4, 8, 16⟩⟩],
    buffers := [exampleDramBuffer BufferType.Input, exampleSramBuffer 8,
      exampleDramBuffer BufferType.Output, exampleDramBuffer BufferType.Input,
      exampleSramBuffer 8, exampleDramBuffer BufferType.Input, exampleSramBuffer 8,
      exampleSramBuffer 4],
    opInputs := [[0], [1], [3], [5], [4, 6]],
    opOutputs := [some 1, some 2, some 4, some 6, some 7] }

/-- A prepared generator state with all three fence markers pointing at
op 1 of the fence example graph (whose agent, id 0, is an OFM streamer),
and one further IFM streamer agent. -/
def fenceWitnessState : GenState :=
  { agents := [⟨⟨1, AgentData.ofm ⟨⟨⟨1, 1, 1⟩, 8⟩⟩⟩, AgentDependencyInfo.empty⟩,
      ⟨⟨1, AgentData.ifm ⟨⟨⟨1, 1, 1⟩, 8⟩⟩⟩, AgentDependencyInfo.empty⟩],
    opToAgentId := [(1, 0)],
    pleKernelToPleLoaderAgentId := [],
    fenceOpForIfmS := some 1, fenceOpForPleL := some 1, fenceOpForWgtS := some 1,
    dramBufToBufId := [], nextBufferId := 0 }

/-- The state after running the Generate-loop step for op 1 of the fence
example graph from the initial state. -/
def fenceStepExample : GenState :=
  ((generateStep fenceExampleGraph GenState.initial 1).toOption).getD GenState.initial

/-- The state after the IfmS fence block fires for agent 1 in the prepared
fence state. -/
def fenceApplyIfmSExample : GenState :=
  ((applyIfmSFence fenceExampleGraph fenceWitnessState 1).toOption).getD GenState.initial

/-- The state after the WgtS fence block fires for agent 1 in the prepared
fence state. -/
def fenceApplyWgtSExample : GenState :=
  ((applyWgtSFence fenceExampleGraph fenceWitnessState 1).toOption).getD GenState.initial

/-- The state after the PleL fence block fires for agent 1 in the prepared
fence state. -/
def fenceApplyPleLExample : GenState :=
  ((applyPleLFence fenceExampleGraph fenceWitnessState 1).toOption).getD GenState.initial

/-! The lifetime walks for intermediate DRAM buffers (the anonymous
namespace helpers WalkGraphUp and WalkGraphDown and
AddLifetimeInfoForIntermediateDramBuffers). -/

/-- std::numeric_limits of size_t, max(). -/
def sizeTMax : Nat := 2 ^ 64 - 1

/-- WalkGraphUp: the index (in execution order) of the earliest op which
could write to the given buffer.  The C++ recursion terminates because the
planned graph is acyclic; here the recursion is bounded by explicit fuel,
instantiated with the op count (each hop moves to a strictly earlier op,
so that fuel is never exhausted on a topologically ordered graph). -/
def walkGraphUp (g : OpGraph) : Nat → Nat → Nat
  | 0, _ => sizeTMax
  | fuel + 1, b =>
    (g.producersOf b).foldl
      (fun result producer =>
        min result
          (let earliestOpIdxThisProducer := (g.inputsOf producer).foldl
            (fun earliest input =>
              if (g.buffer input).location ≠ Location.Dram then
                min earliest (walkGraphUp g fuel input)
              else earliest) sizeTMax
          if earliestOpIdxThisProducer = sizeTMax then
            -- This producer has all inputs in DRAM, so is the earliest
            -- along this branch
            producer
          else earliestOpIdxThisProducer))
      sizeTMax

/-- WalkGraphDown: the index (in execution order) of the latest op which
could read from the given buffer (the C++ asserts that every consumer has
an output; the zero default of the none arm is unreachable under that
precondition). -/
def walkGraphDown (g : OpGraph) : Nat → Nat → Nat
  | 0, _ => 0
  | fuel + 1, b =>
    (g.consumersOf b).foldl
      (fun result consumer =>
        max result
          (match g.outputOf consumer with
          | some output =>
            if (g.buffer output).location = Location.Dram then consumer
            else walkGraphDown g fuel output
          | none => 0))
      0

/-- CascadingCommandStreamGenerator::AddLifetimeInfoForIntermediateDramBuffers:
for every intermediate DRAM buffer, the lifetime window
(start, end + 1) reported to BufferManager::MarkBufferUsedAtTime. -/
def addLifetimeInfoForIntermediateDramBuffers (g : OpGraph) :
    List (Nat × Nat × Nat) :=
  (List.range g.buffers.length).filterMap (fun b =>
    if (g.buffer b).location = Location.Dram ∧
        (g.buffer b).bufferType = some BufferType.Intermediate then
      some (b, walkGraphUp g g.ops.length b, walkGraphDown g g.ops.length b + 1)
    else none)

/-- The precondition the planner guarantees: the operation graph is in
topological (execution) order, so every producer of an input buffer of an
op comes strictly before that op. -/
def OpGraph.topologicallyOrdered (g : OpGraph) : Prop :=
  ∀ i ∈ List.range g.ops.length, ∀ b ∈ g.inputsOf i, ∀ j ∈ g.producersOf b, j < i

/-- A four-op pipeline with an intermediate DRAM buffer (buffer 2):
load input, store to the intermediate, reload it, store to the output. -/
def lifetimeExampleGraph : OpGraph :=
  { ops := [OpDesc.dma, OpDesc.dma, OpDesc.dma, OpDesc.dma],
    buffers := [exampleDramBuffer BufferType.Input, exampleSramBuffer 8,
      exampleDramBuffer BufferType.Intermediate, exampleSramBuffer 8,
      exampleDramBuffer BufferType.Output],
    opInputs := [[0], [1], [2], [3]],
    opOutputs := [some 1, some 2, some 3, some 4] }

/-! Command stream codec: the logical structures of the versioned binary
container (ethosn_command_stream), their binary encoding (32-bit words
modelled as Nat), the parser, and the textual rendering of
BinaryParser.cpp.  Enum-typed fields of the wire structures are kept as
raw numeric values, as in the memory-mapped C++ structs; the renderer
validates them (and throws) exactly where the C++ does. -/

/-- cascading::IfmS as serialized: the fields the renderer prints. -/
structure CsIfmS where
  bufferId : Nat
  DMA_COMP_CONFIG0 : Nat
  DMA_STRIDE1 : Nat
  DMA_STRIDE2 : Nat
  deriving DecidableEq, Repr

/-- cascading::OfmS as serialized. -/
structure CsOfmS where
  bufferId : Nat
  DMA_COMP_CONFIG0 : Nat
  DMA_STRIDE1 : Nat
  DMA_STRIDE2 : Nat
  deriving DecidableEq, Repr

/-- cascading::WgtS as serialized. -/
structure CsWgtS where
  bufferId : Nat
  deriving DecidableEq, Repr

/-- cascading::MceS as serialized (mceOpMode is the raw MceOperation
value). -/
structure CsMceS where
  mceOpMode : Nat
  pleKernelId : Nat
  ACTIVATION_CONFIG : Nat
  WIDE_KERNEL_CONTROL : Nat
  FILTER : Nat
  IFM_ZERO_POINT : Nat
  IFM_DEFAULT_SLOT_SIZE : Nat
  IFM_SLOT_STRIDE : Nat
  STRIPE_BLOCK_CONFIG : Nat
  DEPTHWISE_CONTROL : Nat
  IFM_SLOT_BASE_ADDRESS : Nat
  PLE_MCEIF_CONFIG : Nat
  deriving DecidableEq, Repr

/-- cascading::PleL as serialized. -/
structure CsPleL where
  pleKernelId : Nat
  deriving DecidableEq, Repr

/-- cascading::PleS as serialized (inputMode is the raw PleInputMode
value). -/
structure CsPleS where
  inputMode : Nat
  pleKernelId : Nat
  pleKernelSramAddr : Nat
  deriving DecidableEq, Repr

/-- cascading::Agent: the tagged union of the six role payloads (each
agent self-describes its role via its type tag). -/
inductive CsAgentData where
  | ifm (d : CsIfmS)
  | wgt (d : CsWgtS)
  | mce (d : CsMceS)
  | pleL (d : CsPleL)
  | pleS (d : CsPleS)
  | ofm (d : CsOfmS)
  deriving DecidableEq, Repr

/-- Modelled from the spec: the numeric AgentType tag values follow the
declaration order of the enum (command stream headers not under src/). -/
def CsAgentData.typeTag : CsAgentData → Nat
  | .ifm _ => 0
  | .wgt _ => 1
  | .mce _ => 2
  | .pleL _ => 3
  | .pleS _ => 4
  | .ofm _ => 5

/-- cascading::Agent with its total stripe count (present in the binary;
the textual renderer does not print it). -/
structure CsAgent where
  numStripesTotal : Nat
  data : CsAgentData
  deriving DecidableEq, Repr

/-- cascading::WaitForCounterCommand (counterName is the raw CounterName
value). -/
structure CsWaitForCounterCommand where
  counterName : Nat
  counterValue : Nat
  deriving DecidableEq, Repr

/-- cascading::DmaCommand: one storage shape reused for the four logical
DMA command kinds; cmdType is the raw CommandType value. -/
structure CsDmaCommand where
  cmdType : Nat
  agentId : Nat
  m_DramOffset : Nat
  SRAM_ADDR : Nat
  DMA_SRAM_STRIDE : Nat
  DMA_STRIDE0 : Nat
  DMA_STRIDE3 : Nat
  DMA_CHANNELS : Nat
  DMA_EMCS : Nat
  DMA_TOTAL_BYTES : Nat
  DMA_CMD : Nat
  deriving DecidableEq, Repr

/-- cascading::ProgramMceStripeCommand (the fixed-size register arrays are
modelled as lists; their extents are hardware constants). -/
structure CsProgramMceStripeCommand where
  agentId : Nat
  MUL_ENABLE : List (List Nat)
  IFM_ROW_STRIDE : Nat
  IFM_CONFIG1 : Nat
  IFM_PAD : List (List Nat)
  WIDE_KERNEL_OFFSET : Nat
  IFM_TOP_SLOTS : Nat
  IFM_MID_SLOTS : Nat
  IFM_BOTTOM_SLOTS : Nat
  IFM_SLOT_PAD_CONFIG : Nat
  OFM_STRIPE_SIZE : Nat
  OFM_CONFIG : Nat
  WEIGHT_BASE_ADDR : List Nat
  IFM_CONFIG2 : List (List Nat)
  m_NumBlocksProgrammedForMce : Nat
  deriving DecidableEq, Repr

/-- cascading::ConfigMceifCommand. -/
structure CsConfigMceifCommand where
  agentId : Nat
  deriving DecidableEq, Repr

/-- cascading::StartMceStripeCommand. -/
structure CsStartMceStripeCommand where
  agentId : Nat
  CE_ENABLES : Nat
  deriving DecidableEq, Repr

/-- cascading::LoadPleCodeIntoPleSramCommand. -/
structure CsLoadPleCodeIntoPleSramCommand where
  agentId : Nat
  deriving DecidableEq, Repr

/-- cascading::StartPleStripeCommand. -/
structure CsStartPleStripeCommand where
  agentId : Nat
  SCRATCH : List Nat
  deriving DecidableEq, Repr

/-- cascading::Command: the queue command variants. -/
inductive CsCommand where
  | waitForCounter (c : CsWaitForCounterCommand)
  | dma (c : CsDmaCommand)
  | programMceStripe (c : CsProgramMceStripeCommand)
  | configMceif (c : CsConfigMceifCommand)
  | startMceStripe (c : CsStartMceStripeCommand)
  | loadPleCodeIntoPleSram (c : CsLoadPleCodeIntoPleSramCommand)
  | startPleStripe (c : CsStartPleStripeCommand)
  deriving DecidableEq, Repr

/-- Modelled from the spec: the numeric CommandType values follow the
declaration order of the enum (WaitForCounter 0, LoadIfmStripe 1,
LoadWgtStripe 2, ProgramMceStripe 3, ConfigMceif 4, StartMceStripe 5,
LoadPleCodeIntoSram 6, LoadPleCodeIntoPleSram 7, StartPleStripe 8,
StoreOfmStripe 9). -/
def CsCommand.typeTag : CsCommand → Nat
  | .waitForCounter _ => 0
  | .dma c => c.cmdType
  | .programMceStripe _ => 3
  | .configMceif _ => 4
  | .startMceStripe _ => 5
  | .loadPleCodeIntoPleSram _ => 7
  | .startPleStripe _ => 8

/-- The four CommandType values stored in a DmaCommand: LoadIfmStripe,
LoadWgtStripe, LoadPleCodeIntoSram and StoreOfmStripe. -/
def validDmaCommandType (t : Nat) : Prop := t = 1 ∨ t = 2 ∨ t = 6 ∨ t = 9

/-- A command is well formed when a DmaCommand carries one of the four
DMA command type values (which is how every command the scheduler emits is
constructed). -/
def CsCommand.wellFormed : CsCommand → Prop
  | .dma c => validDmaCommandType c.cmdType
  | _ => True

/-- cascading::Cascade: the agent array and the four per-queue command
lists. -/
structure CsCascade where
  agents : List CsAgent
  dmaRdCommands : List CsCommand
  dmaWrCommands : List CsCommand
  mceCommands : List CsCommand
  pleCommands : List CsCommand
  deriving DecidableEq, Repr

/-- Every command of the cascade is well formed. -/
def CsCascade.wellFormed (c : CsCascade) : Prop :=
  (∀ x ∈ c.dmaRdCommands, x.wellFormed) ∧ (∀ x ∈ c.dmaWrCommands, x.wellFormed) ∧
    (∀ x ∈ c.mceCommands, x.wellFormed) ∧ (∀ x ∈ c.pleCommands, x.wellFormed)

/-- DumpDram payload: a DRAM buffer id and a filename (character codes). -/
structure CsDumpDram where
  dramBufferId : Nat
  filename : List Nat
  deriving DecidableEq, Repr

/-- A top-level command: the two debug dumps or the cascade payload. -/
inductive TopCommand where
  | dumpDram (d : CsDumpDram)
  | dumpSram (filename : List Nat)
  | cascade (c : CsCascade)
  deriving DecidableEq, Repr

/-- A top-level command is well formed when its cascade (if any) is. -/
def TopCommand.wellFormed : TopCommand → Prop
  | .cascade c => c.wellFormed
  | _ => True

/-- The whole command stream: the three version fields and the opcode
tagged top-level commands. -/
structure CommandStreamData where
  versionMajor : Nat
  versionMinor : Nat
  versionPatch : Nat
  commands : List TopCommand
  deriving DecidableEq, Repr

/-- A validly constructed command stream. -/
def CommandStreamData.wellFormed (x : CommandStreamData) : Prop :=
  ∀ c ∈ x.commands, c.wellFormed

/-! Binary encoding.  Modelled from the spec: CommandStreamBuffer and
AddCascade (ethosn_command_stream headers) are not under src/.  Per the
spec the container is the three version integers, then opcode-tagged
top-level commands; the cascade payload is a count and flat array of
self-describing agents and four counts and flat arrays of variable-length
commands, each command beginning with its own total length.  Variable
extents (register arrays, filenames) are length prefixed. -/

/-- A length-prefixed flat list. -/
def encodeList1 (xs : List Nat) : List Nat := xs.length :: xs

/-- A length-prefixed list of length-prefixed lists. -/
def encodeList2 (xss : List (List Nat)) : List Nat :=
  xss.length :: (xss.map encodeList1).flatten

/-- The tag and fields of one queue command (without the length prefix). -/
def encodeCommandPayload : CsCommand → List Nat
  | .waitForCounter c => [0, c.counterName, c.counterValue]
  | .dma c => [c.cmdType, c.agentId, c.m_DramOffset, c.SRAM_ADDR, c.DMA_SRAM_STRIDE,
      c.DMA_STRIDE0, c.DMA_STRIDE3, c.DMA_CHANNELS, c.DMA_EMCS, c.DMA_TOTAL_BYTES,
      c.DMA_CMD]
  | .programMceStripe c => 3 :: c.agentId :: (encodeList2 c.MUL_ENABLE ++
      [c.IFM_ROW_STRIDE, c.IFM_CONFIG1] ++ encodeList2 c.IFM_PAD ++
      [c.WIDE_KERNEL_OFFSET, c.IFM_TOP_SLOTS, c.IFM_MID_SLOTS, c.IFM_BOTTOM_SLOTS,
        c.IFM_SLOT_PAD_CONFIG, c.OFM_STRIPE_SIZE, c.OFM_CONFIG] ++
      encodeList1 c.WEIGHT_BASE_ADDR ++ encodeList2 c.IFM_CONFIG2 ++
      [c.m_NumBlocksProgrammedForMce])
  | .configMceif c => [4, c.agentId]
  | .startMceStripe c => [5, c.agentId, c.CE_ENABLES]
  | .loadPleCodeIntoPleSram c => [7, c.agentId]
  | .startPleStripe c => 8 :: c.agentId :: encodeList1 c.SCRATCH

/-- A queue command: its total length, then its tag and fields (so a
reader can skip to the next command without knowing the variant sizes). -/
def encodeCommand (c : CsCommand) : List Nat :=
  (encodeCommandPayload c).length :: encodeCommandPayload c

/-- An agent: its self-describing role tag, its total stripe count and
its payload fields. -/
def encodeAgent (a : CsAgent) : List Nat :=
  match a.data with
  | .ifm d => [0, a.numStripesTotal, d.bufferId, d.DMA_COMP_CONFIG0, d.DMA_STRIDE1,
      d.DMA_STRIDE2]
  | .wgt d => [1, a.numStripesTotal, d.bufferId]
  | .mce d => [2, a.numStripesTotal, d.mceOpMode, d.pleKernelId, d.ACTIVATION_CONFIG,
      d.WIDE_KERNEL_CONTROL, d.FILTER, d.IFM_ZERO_POINT, d.IFM_DEFAULT_SLOT_SIZE,
      d.IFM_SLOT_STRIDE, d.STRIPE_BLOCK_CONFIG, d.DEPTHWISE_CONTROL,
      d.IFM_SLOT_BASE_ADDRESS, d.PLE_MCEIF_CONFIG]
  | .pleL d => [3, a.numStripesTotal, d.pleKernelId]
  | .pleS d => [4, a.numStripesTotal, d.inputMode, d.pleKernelId, d.pleKernelSramAddr]
  | .ofm d => [5, a.numStripesTotal, d.bufferId, d.DMA_COMP_CONFIG0, d.DMA_STRIDE1,
      d.DMA_STRIDE2]

/-- The cascade payload: agent count and flat agent array, then the four
command counts and flat command arrays. -/
def encodeCascade (c : CsCascade) : List Nat :=
  c.agents.length :: (c.agents.map encodeAgent).flatten ++
  c.dmaRdCommands.length :: (c.dmaRdCommands.map encodeCommand).flatten ++
  c.dmaWrCommands.length :: (c.dmaWrCommands.map encodeCommand).flatten ++
  c.mceCommands.length :: (c.mceCommands.map encodeCommand).flatten ++
  c.pleCommands.length :: (c.pleCommands.map encodeCommand).flatten

/-- A top-level command: its opcode (DUMP_DRAM 0, DUMP_SRAM 1, CASCADE 2)
and its payload. -/
def encodeTopCommand : TopCommand → List Nat
  | .dumpDram d => 0 :: d.dramBufferId :: encodeList1 d.filename
  | .dumpSram filename => 1 :: encodeList1 filename
  | .cascade c => 2 :: encodeCascade c

/-- The whole binary container: the version header, then the top-level
commands. -/
def encodeBinary (x : CommandStreamData) : List Nat :=
  x.versionMajor :: x.versionMinor :: x.versionPatch ::
    (x.commands.map encodeTopCommand).flatten

/-! Binary parsing, mirroring BinaryParser.cpp: ParseBinary iterates the
top-level commands dispatching on the opcode, a cascade payload is walked
agent by agent (dispatching on the self-describing agent type) and
command by command (skipping by each command's leading length and
dispatching on its type).  Every unrecognized tag raises a
ParseException identifying the invalid value. -/

/-- ParseException: the corrupt-input errors BinaryParser.cpp raises;
each carries the invalid value its message reports.  Reading past the
end of the buffer is truncation. -/
inductive ParseError where
  | invalidOpcode (v : Nat)
  | invalidAgentType (v : Nat)
  | invalidCommandType (v : Nat)
  | invalidCounterName (v : Nat)
  | invalidMceOperation (v : Nat)
  | invalidPleInputMode (v : Nat)
  | truncated
  deriving DecidableEq, Repr

/-- Read one word of the stream. -/
def readWord : List Nat → Except ParseError (Nat × List Nat)
  | [] => .error .truncated
  | w :: ws => .ok (w, ws)

/-- Read a fixed number of words of the stream. -/
def readWords (n : Nat) (ws : List Nat) : Except ParseError (List Nat × List Nat) :=
  if n ≤ ws.length then .ok (ws.take n, ws.drop n) else .error .truncated

/-- Read a length-prefixed flat list. -/
def parseList1 (ws0 : List Nat) : Except ParseError (List Nat × List Nat) := do
  let (n, ws) ← readWord ws0
  readWords n ws

/-- Read a given number of length-prefixed lists. -/
def parseNList1 : Nat → List Nat → Except ParseError (List (List Nat) × List Nat)
  | 0, ws => .ok ([], ws)
  | n + 1, ws => do
    let (x, ws1) ← parseList1 ws
    let (xs, ws2) ← parseNList1 n ws1
    .ok (x :: xs, ws2)

/-- Read a length-prefixed list of length-prefixed lists. -/
def parseList2 (ws0 : List Nat) : Except ParseError (List (List Nat) × List Nat) := do
  let (n, ws) ← readWord ws0
  parseNList1 n ws

/-- Read one agent, dispatching on its self-describing type tag;
an unrecognized tag is the "Invalid cascading agent type" error
(BinaryParser.cpp line 353). -/
def parseAgent (ws0 : List Nat) : Except ParseError (CsAgent × List Nat) := do
  let (tag, ws) ← readWord ws0
  if tag = 0 then do
    let (n, ws) ← readWord ws
    let (f0, ws) ← readWord ws
    let (f1, ws) ← readWord ws
    let (f2, ws) ← readWord ws
    let (f3, ws) ← readWord ws
    .ok (⟨n, .ifm ⟨f0, f1, f2, f3⟩⟩, ws)
  else if tag = 1 then do
    let (n, ws) ← readWord ws
    let (f0, ws) ← readWord ws
    .ok (⟨n, .wgt ⟨f0⟩⟩, ws)
  else if tag = 2 then do
    let (n, ws) ← readWord ws
    let (f0, ws) ← readWord ws
    let (f1, ws) ← readWord ws
    let (f2, ws) ← readWord ws
    let (f3, ws) ← readWord ws
    let (f4, ws) ← readWord ws
    let (f5, ws) ← readWord ws
    let (f6, ws) ← readWord ws
    let (f7, ws) ← readWord ws
    let (f8, ws) ← readWord ws
    let (f9, ws) ← readWord ws
    let (f10, ws) ← readWord ws
    let (f11, ws) ← readWord ws
    .ok (⟨n, .mce ⟨f0, f1, f2, f3, f4, f5, f6, f7, f8, f9, f10, f11⟩⟩, ws)
  else if tag = 3 then do
    let (n, ws) ← readWord ws
    let (f0, ws) ← readWord ws
    .ok (⟨n, .pleL ⟨f0⟩⟩, ws)
  else if tag = 4 then do
    let (n, ws) ← readWord ws
    let (f0, ws) ← readWord ws
    let (f1, ws) ← readWord ws
    let (f2, ws) ← readWord ws
    .ok (⟨n, .pleS ⟨f0, f1, f2⟩⟩, ws)
  else if tag = 5 then do
    let (n, ws) ← readWord ws
    let (f0, ws) ← readWord ws
    let (f1, ws) ← readWord ws
    let (f2, ws) ← readWord ws
    let (f3, ws) ← readWord ws
    .ok (⟨n, .ofm ⟨f0, f1, f2, f3⟩⟩, ws)
  else .error (.invalidAgentType tag)

/-- Read a given number of agents. -/
def parseNAgents : Nat → List Nat → Except ParseError (List CsAgent × List Nat)
  | 0, ws => .ok ([], ws)
  | n + 1, ws => do
    let (a, ws1) ← parseAgent ws
    let (as_, ws2) ← parseNAgents n ws1
    .ok (a :: as_, ws2)

/-- Read the ten fixed DmaCommand fields after the type tag. -/
def parseDmaFields (t : Nat) (ws0 : List Nat) : Except ParseError CsCommand := do
  let (f0, ws) ← readWord ws0
  let (f1, ws) ← readWord ws
  let (f2, ws) ← readWord ws
  let (f3, ws) ← readWord ws
  let (f4, ws) ← readWord ws
  let (f5, ws) ← readWord ws
  let (f6, ws) ← readWord ws
  let (f7, ws) ← readWord ws
  let (f8, ws) ← readWord ws
  let (f9, _) ← readWord ws
  .ok (.dma ⟨t, f0, f1, f2, f3, f4, f5, f6, f7, f8, f9⟩)

/-- Decode one queue command from its delimited body (the words after
the length prefix), dispatching on the leading type tag; an unrecognized
tag is the invalid-command-type ParseException (BinaryParser.cpp line
702). -/
def parseCommandBody (body : List Nat) : Except ParseError CsCommand := do
  let (tag, ws) ← readWord body
  if tag = 0 then do
    let (f0, ws) ← readWord ws
    let (f1, _) ← readWord ws
    .ok (.waitForCounter ⟨f0, f1⟩)
  else if tag = 1 ∨ tag = 2 ∨ tag = 6 ∨ tag = 9 then
    parseDmaFields tag ws
  else if tag = 3 then do
    let (agentId, ws) ← readWord ws
    let (mul, ws) ← parseList2 ws
    let (rowStride, ws) ← readWord ws
    let (cfg1, ws) ← readWord ws
    let (pad, ws) ← parseList2 ws
    let (wko, ws) ← readWord ws
    let (top, ws) ← readWord ws
    let (mid, ws) ← readWord ws
    let (bot, ws) ← readWord ws
    let (slotPad, ws) ← readWord ws
    let (stripeSize, ws) ← readWord ws
    let (ofmCfg, ws) ← readWord ws
    let (wba, ws) ← parseList1 ws
    let (cfg2, ws) ← parseList2 ws
    let (nb, _) ← readWord ws
    .ok (.programMceStripe ⟨agentId, mul, rowStride, cfg1, pad, wko, top, mid, bot,
      slotPad, stripeSize, ofmCfg, wba, cfg2, nb⟩)
  else if tag = 4 then do
    let (f0, _) ← readWord ws
    .ok (.configMceif ⟨f0⟩)
  else if tag = 5 then do
    let (f0, ws) ← readWord ws
    let (f1, _) ← readWord ws
    .ok (.startMceStripe ⟨f0, f1⟩)
  else if tag = 7 then do
    let (f0, _) ← readWord ws
    .ok (.loadPleCodeIntoPleSram ⟨f0⟩)
  else if tag = 8 then do
    let (f0, ws) ← readWord ws
    let (scratch, _) ← parseList1 ws
    .ok (.startPleStripe ⟨f0, scratch⟩)
  else .error (.invalidCommandType tag)

/-- Read one queue command: its leading total length delimits its body
(c.GetSize() advances the iteration), then the body is decoded. -/
def parseCommand (ws0 : List Nat) : Except ParseError (CsCommand × List Nat) := do
  let (len, ws) ← readWord ws0
  let (body, rest) ← readWords len ws
  let c ← parseCommandBody body
  .ok (c, rest)

/-- Read a given number of queue commands. -/
def parseNCommands : Nat → List Nat → Except ParseError (List CsCommand × List Nat)
  | 0, ws => .ok ([], ws)
  | n + 1, ws => do
    let (c, ws1) ← parseCommand ws
    let (cs, ws2) ← parseNCommands n ws1
    .ok (c :: cs, ws2)

/-- Read a cascade payload: the agent count and agents, then the four
command counts and command arrays. -/
def parseCascade (ws0 : List Nat) : Except ParseError (CsCascade × List Nat) := do
  let (nAgents, ws) ← readWord ws0
  let (agents, ws) ← parseNAgents nAgents ws
  let (nRd, ws) ← readWord ws
  let (rd, ws) ← parseNCommands nRd ws
  let (nWr, ws) ← readWord ws
  let (wr, ws) ← parseNCommands nWr ws
  let (nMce, ws) ← readWord ws
  let (mce, ws) ← parseNCommands nMce ws
  let (nPle, ws) ← readWord ws
  let (ple, ws) ← parseNCommands nPle ws
  .ok (⟨agents, rd, wr, mce, ple⟩, ws)

/-- Read one top-level command, dispatching on its opcode; an
unrecognized opcode is the "Invalid Opcode" ParseException
(BinaryParser.cpp line 813). -/
def parseTopCommand (ws0 : List Nat) : Except ParseError (TopCommand × List Nat) := do
  let (op, ws) ← readWord ws0
  if op = 0 then do
    let (bufId, ws) ← readWord ws
    let (fn, ws) ← parseList1 ws
    .ok (.dumpDram ⟨bufId, fn⟩, ws)
  else if op = 1 then do
    let (fn, ws) ← parseList1 ws
    .ok (.dumpSram fn, ws)
  else if op = 2 then do
    let (c, ws) ← parseCascade ws
    .ok (.cascade c, ws)
  else .error (.invalidOpcode op)

/-- Iterate the top-level commands to the end of the buffer (fuel bounds
the iteration; each command consumes at least its opcode word, so the
buffer length is enough fuel). -/
def parseTopCommands : Nat → List Nat → Except ParseError (List TopCommand)
  | _, [] => .ok []
  | 0, _ :: _ => .error .truncated
  | fuel + 1, ws => do
    let (c, ws1) ← parseTopCommand ws
    let cs ← parseTopCommands fuel ws1
    .ok (c :: cs)

/-- ParseBinary: read the three version words, then iterate the
top-level commands. -/
def parseBinary (ws0 : List Nat) : Except ParseError CommandStreamData := do
  let (v1, ws) ← readWord ws0
  let (v2, ws) ← readWord ws
  let (v3, ws) ← readWord ws
  let cmds ← parseTopCommands ws.length ws
  .ok ⟨v1, v2, v3, cmds⟩

/-! Textual rendering, mirroring the Parse printing overloads of
BinaryParser.cpp.  Parse(parent, value, tabs, newline) prints four
spaces per tab; ParseAsHex prints "0x" and lowercase hex digits;
ParseAsNum prints decimal. -/

/-- Four spaces per tab (Parse, BinaryParser.cpp lines 25-38). -/
def psTabs (n : Nat) : String := String.join (List.replicate n "    ")

/-- An opening element on its own line. -/
def xmlOpen (t : Nat) (tagName : String) : String :=
  psTabs t ++ "<" ++ tagName ++ ">\n"

/-- A closing element on its own line. -/
def xmlClose (t : Nat) (tagName : String) : String :=
  psTabs t ++ "</" ++ tagName ++ ">\n"

/-- A leaf element with its value on one line. -/
def xmlLeaf (t : Nat) (tagName : String) (v : String) : String :=
  psTabs t ++ "<" ++ tagName ++ ">" ++ v ++ "</" ++ tagName ++ ">\n"

/-- ParseAsHex: "0x" and base-16 digits (lowercase, as std::setbase). -/
def asHex (v : Nat) : String := "0x" ++ String.mk (Nat.toDigits 16 v)

/-- ParseAsNum: base-10 digits. -/
def asNum (v : Nat) : String := toString v

/-- The XML comment opener, assembled character by character. -/
def commentOpen : String := String.mk ['<', '!', '-', '-']

/-- The XML comment closer, assembled character by character. -/
def commentClose : String := String.mk ['-', '-', '>']

/-- An XML comment line at the given indentation. -/
def commentLine (t : Nat) (text : String) : String :=
  psTabs t ++ commentOpen ++ " " ++ text ++ " " ++ commentClose ++ "\n"

/-- Parse(Filename): the stored character codes printed as text. -/
def renderFilename (cs : List Nat) : String := String.mk (cs.map Char.ofNat)

/-- Parse(MceOperation) (lines 182-208): the enum name, or the
invalid-MceOperation ParseException for an out-of-range value.
Modelled from the spec: the numeric values follow enum declaration
order (the enum lives in command stream headers not under src/). -/
def renderMceOperation (v : Nat) : Except ParseError String :=
  if v = 0 then .ok "CONVOLUTION"
  else if v = 1 then .ok "DEPTHWISE_CONVOLUTION"
  else if v = 2 then .ok "FULLY_CONNECTED"
  else .error (.invalidMceOperation v)

/-- Parse(PleInputMode) (lines 276-307): the enum name, or the
invalid-PleInputMode ParseException.  Modelled from the spec: numeric
values follow enum declaration order. -/
def renderPleInputMode (v : Nat) : Except ParseError String :=
  if v = 0 then .ok "MCE_ALL_OGS"
  else if v = 1 then .ok "MCE_ONE_OG"
  else if v = 2 then .ok "SRAM_ONE_INPUT"
  else if v = 3 then .ok "SRAM_TWO_INPUTS"
  else .error (.invalidPleInputMode v)

/-- CounterNameToString (lines 358-377): the counter name, or the
invalid-counter-name ParseException.  Modelled from the spec: numeric
values follow enum declaration order. -/
def CounterNameToString (v : Nat) : Except ParseError String :=
  if v = 0 then .ok "DmaRd"
  else if v = 1 then .ok "DmaWr"
  else if v = 2 then .ok "Mceif"
  else if v = 3 then .ok "MceStripe"
  else if v = 4 then .ok "PleCodeLoadedIntoPleSram"
  else if v = 5 then .ok "PleStripe"
  else .error (.invalidCounterName v)

/-- CommandTypeToString (lines 396-424): the command type name; an
out-of-range value throws (here folded into the same error type). -/
def CommandTypeToString (v : Nat) : Except ParseError String :=
  if v = 0 then .ok "WaitForCounter"
  else if v = 1 then .ok "LoadIfmStripe"
  else if v = 2 then .ok "LoadWgtStripe"
  else if v = 3 then .ok "ProgramMceStripe"
  else if v = 4 then .ok "ConfigMceif"
  else if v = 5 then .ok "StartMceStripe"
  else if v = 6 then .ok "LoadPleCodeIntoSram"
  else if v = 7 then .ok "LoadPleCodeIntoPleSram"
  else if v = 8 then .ok "StartPleStripe"
  else if v = 9 then .ok "StoreOfmStripe"
  else .error (.invalidCommandType v)

/-- Modelled from the spec: PleKernelId2String (command stream headers,
not under src/) prints the kernel id enumerator name; modelled as a
total rendering of the numeric id. -/
def PleKernelId2String (v : Nat) : String := "PLE_KERNEL_" ++ toString v

/-- Parse(DumpDram) (lines 99-112). -/
def renderDumpDram (d : CsDumpDram) : String :=
  xmlOpen 1 "DUMP_DRAM" ++
  xmlLeaf 2 "DRAM_BUFFER_ID" (asNum d.dramBufferId) ++
  xmlLeaf 2 "FILENAME" (renderFilename d.filename) ++
  xmlClose 1 "DUMP_DRAM"

/-- Parse(DumpSram) (lines 114-123). -/
def renderDumpSram (filename : List Nat) : String :=
  xmlOpen 1 "DUMP_SRAM" ++
  xmlLeaf 2 "PREFIX" (renderFilename filename) ++
  xmlClose 1 "DUMP_SRAM"

/-- Parse(IfmS) (lines 125-146). -/
def renderIfmS (d : CsIfmS) : String :=
  xmlOpen 3 "IFM_STREAMER" ++
  xmlLeaf 4 "BUFFER_ID" (asNum d.bufferId) ++
  xmlLeaf 4 "DMA_COMP_CONFIG0" (asHex d.DMA_COMP_CONFIG0) ++
  xmlLeaf 4 "DMA_STRIDE1" (asHex d.DMA_STRIDE1) ++
  xmlLeaf 4 "DMA_STRIDE2" (asHex d.DMA_STRIDE2) ++
  xmlClose 3 "IFM_STREAMER"

/-- Parse(OfmS) (lines 148-169). -/
def renderOfmS (d : CsOfmS) : String :=
  xmlOpen 3 "OFM_STREAMER" ++
  xmlLeaf 4 "BUFFER_ID" (asNum d.bufferId) ++
  xmlLeaf 4 "DMA_COMP_CONFIG0" (asHex d.DMA_COMP_CONFIG0) ++
  xmlLeaf 4 "DMA_STRIDE1" (asHex d.DMA_STRIDE1) ++
  xmlLeaf 4 "DMA_STRIDE2" (asHex d.DMA_STRIDE2) ++
  xmlClose 3 "OFM_STREAMER"

/-- Parse(WgtS) (lines 171-180). -/
def renderWgtS (d : CsWgtS) : String :=
  xmlOpen 3 "WGT_STREAMER" ++
  xmlLeaf 4 "BUFFER_ID" (asNum d.bufferId) ++
  xmlClose 3 "WGT_STREAMER"

/-- Parse(MceS) (lines 210-263); the MceOperation render can throw. -/
def renderMceS (d : CsMceS) : Except ParseError String := do
  let op ← renderMceOperation d.mceOpMode
  .ok (xmlOpen 3 "MCE_SCHEDULER" ++
    xmlLeaf 4 "MCE_OP_MODE" op ++
    xmlLeaf 4 "PLE_KERNEL_ID" (PleKernelId2String d.pleKernelId) ++
    xmlLeaf 4 "ACTIVATION_CONFIG" (asHex d.ACTIVATION_CONFIG) ++
    xmlLeaf 4 "WIDE_KERNEL_CONTROL" (asHex d.WIDE_KERNEL_CONTROL) ++
    xmlLeaf 4 "FILTER" (asHex d.FILTER) ++
    xmlLeaf 4 "IFM_ZERO_POINT" (asHex d.IFM_ZERO_POINT) ++
    xmlLeaf 4 "IFM_DEFAULT_SLOT_SIZE" (asHex d.IFM_DEFAULT_SLOT_SIZE) ++
    xmlLeaf 4 "IFM_SLOT_STRIDE" (asHex d.IFM_SLOT_STRIDE) ++
    xmlLeaf 4 "STRIPE_BLOCK_CONFIG" (asHex d.STRIPE_BLOCK_CONFIG) ++
    xmlLeaf 4 "DEPTHWISE_CONTROL" (asHex d.DEPTHWISE_CONTROL) ++
    xmlLeaf 4 "IFM_SLOT_BASE_ADDRESS" (asHex d.IFM_SLOT_BASE_ADDRESS) ++
    xmlLeaf 4 "PLE_MCEIF_CONFIG" (asHex d.PLE_MCEIF_CONFIG) ++
    xmlClose 3 "MCE_SCHEDULER")

/-- Parse(PleL) (lines 265-274). -/
def renderPleL (d : CsPleL) : String :=
  xmlOpen 3 "PLE_LOADER" ++
  xmlLeaf 4 "PLE_KERNEL_ID" (PleKernelId2String d.pleKernelId) ++
  xmlClose 3 "PLE_LOADER"

/-- Parse(PleS) (lines 309-326); the PleInputMode render can throw. -/
def renderPleS (d : CsPleS) : Except ParseError String := do
  let im ← renderPleInputMode d.inputMode
  .ok (xmlOpen 3 "PLE_SCHEDULER" ++
    xmlLeaf 4 "INPUT_MODE" im ++
    xmlLeaf 4 "PLE_KERNEL_ID" (PleKernelId2String d.pleKernelId) ++
    xmlLeaf 4 "PLE_KERNEL_SRAM_ADDR" (asNum d.pleKernelSramAddr) ++
    xmlClose 3 "PLE_SCHEDULER")

/-- Parse(Agent) (lines 328-356): dispatch on the agent role.  The
total stripe count is not printed. -/
def renderAgent (a : CsAgent) : Except ParseError String :=
  match a.data with
  | .ifm d => .ok (renderIfmS d)
  | .wgt d => .ok (renderWgtS d)
  | .mce d => renderMceS d
  | .pleL d => .ok (renderPleL d)
  | .pleS d => renderPleS d
  | .ofm d => .ok (renderOfmS d)

/-- An indexed flat register array: one leaf per entry with the index
appended to the element name. -/
def renderIndexed1 (t : Nat) (pre : String) (xs : List Nat) : String :=
  String.join (xs.enum.map (fun p => xmlLeaf t (pre ++ toString p.fst) (asHex p.snd)))

/-- An indexed two-level register array: an element per row (index in
the name), leaves per entry inside. -/
def renderIndexed2 (outerPre : String) (innerPre : String) (xss : List (List Nat)) : String :=
  String.join (xss.enum.map (fun p =>
    xmlOpen 4 (outerPre ++ toString p.fst) ++
    renderIndexed1 5 innerPre p.snd ++
    xmlClose 4 (outerPre ++ toString p.fst)))

/-- Parse(WaitForCounterCommand) (lines 379-394); the counter name
render can throw. -/
def renderWaitForCounterCommand (c : CsWaitForCounterCommand) : Except ParseError String := do
  let n ← CounterNameToString c.counterName
  .ok (xmlOpen 3 "WAIT_FOR_COUNTER_COMMAND" ++
    xmlLeaf 4 "COUNTER_NAME" n ++
    xmlLeaf 4 "COUNTER_VALUE" (asNum c.counterValue) ++
    xmlClose 3 "WAIT_FOR_COUNTER_COMMAND")

/-- Parse(DmaCommand) (lines 426-476): a comment names which of the
four DMA kinds this is, then the shared fields. -/
def renderDmaCommand (c : CsDmaCommand) : Except ParseError String := do
  let ts ← CommandTypeToString c.cmdType
  .ok (commentLine 3 ("Command type is " ++ ts) ++
    xmlOpen 3 "DMA_COMMAND" ++
    xmlLeaf 4 "AGENT_ID" (asNum c.agentId) ++
    xmlLeaf 4 "DRAM_OFFSET" (asHex c.m_DramOffset) ++
    xmlLeaf 4 "SRAM_ADDR" (asHex c.SRAM_ADDR) ++
    xmlLeaf 4 "DMA_SRAM_STRIDE" (asHex c.DMA_SRAM_STRIDE) ++
    xmlLeaf 4 "DMA_STRIDE0" (asHex c.DMA_STRIDE0) ++
    xmlLeaf 4 "DMA_STRIDE3" (asHex c.DMA_STRIDE3) ++
    xmlLeaf 4 "DMA_CHANNELS" (asHex c.DMA_CHANNELS) ++
    xmlLeaf 4 "DMA_EMCS" (asHex c.DMA_EMCS) ++
    xmlLeaf 4 "DMA_TOTAL_BYTES" (asHex c.DMA_TOTAL_BYTES) ++
    xmlLeaf 4 "DMA_CMD" (asHex c.DMA_CMD) ++
    xmlClose 3 "DMA_COMMAND")

/-- Parse(ProgramMceStripeCommand) (lines 478-598). -/
def renderProgramMceStripeCommand (c : CsProgramMceStripeCommand) : String :=
  xmlOpen 3 "PROGRAM_MCE_STRIPE_COMMAND" ++
  xmlLeaf 4 "AGENT_ID" (asNum c.agentId) ++
  renderIndexed2 "MUL_ENABLE_CE" "OG" c.MUL_ENABLE ++
  xmlLeaf 4 "IFM_ROW_STRIDE" (asHex c.IFM_ROW_STRIDE) ++
  xmlLeaf 4 "IFM_CONFIG1" (asHex c.IFM_CONFIG1) ++
  renderIndexed2 "IFM_PAD_NUM" "IG" c.IFM_PAD ++
  xmlLeaf 4 "WIDE_KERNEL_OFFSET" (asHex c.WIDE_KERNEL_OFFSET) ++
  xmlLeaf 4 "IFM_TOP_SLOTS" (asHex c.IFM_TOP_SLOTS) ++
  xmlLeaf 4 "IFM_MID_SLOTS" (asHex c.IFM_MID_SLOTS) ++
  xmlLeaf 4 "IFM_BOTTOM_SLOTS" (asHex c.IFM_BOTTOM_SLOTS) ++
  xmlLeaf 4 "IFM_SLOT_PAD_CONFIG" (asHex c.IFM_SLOT_PAD_CONFIG) ++
  xmlLeaf 4 "OFM_STRIPE_SIZE" (asHex c.OFM_STRIPE_SIZE) ++
  xmlLeaf 4 "OFM_CONFIG" (asHex c.OFM_CONFIG) ++
  renderIndexed1 4 "WEIGHT_BASE_ADDR_OG" c.WEIGHT_BASE_ADDR ++
  renderIndexed2 "IFM_CONFIG2_CE" "IG" c.IFM_CONFIG2 ++
  xmlLeaf 4 "NUM_BLOCKS_PROGRAMMED_FOR_MCE" (asHex c.m_NumBlocksProgrammedForMce) ++
  xmlClose 3 "PROGRAM_MCE_STRIPE_COMMAND"

/-- Parse(ConfigMceifCommand) (lines 600-611). -/
def renderConfigMceifCommand (c : CsConfigMceifCommand) : String :=
  xmlOpen 3 "CONFIG_MCEIF_COMMAND" ++
  xmlLeaf 4 "AGENT_ID" (asNum c.agentId) ++
  xmlClose 3 "CONFIG_MCEIF_COMMAND"

/-- Parse(StartMceStripeCommand) (lines 613-628). -/
def renderStartMceStripeCommand (c : CsStartMceStripeCommand) : String :=
  xmlOpen 3 "START_MCE_STRIPE_COMMAND" ++
  xmlLeaf 4 "AGENT_ID" (asNum c.agentId) ++
  xmlLeaf 4 "CE_ENABLES" (asNum c.CE_ENABLES) ++
  xmlClose 3 "START_MCE_STRIPE_COMMAND"

/-- Parse(LoadPleCodeIntoPleSramCommand) (lines 630-641). -/
def renderLoadPleCodeIntoPleSramCommand (c : CsLoadPleCodeIntoPleSramCommand) : String :=
  xmlOpen 3 "LOAD_PLE_CODE_INTO_PLE_SRAM_COMMAND" ++
  xmlLeaf 4 "AGENT_ID" (asNum c.agentId) ++
  xmlClose 3 "LOAD_PLE_CODE_INTO_PLE_SRAM_COMMAND"

/-- Parse(StartPleStripeCommand) (lines 643-663). -/
def renderStartPleStripeCommand (c : CsStartPleStripeCommand) : String :=
  xmlOpen 3 "START_PLE_STRIPE_COMMAND" ++
  xmlLeaf 4 "AGENT_ID" (asNum c.agentId) ++
  renderIndexed1 4 "SCRATCH" c.SCRATCH ++
  xmlClose 3 "START_PLE_STRIPE_COMMAND"

/-- Parse(Command) (lines 665-704): dispatch on the command variant. -/
def renderCommand (c : CsCommand) : Except ParseError String :=
  match c with
  | .waitForCounter c => renderWaitForCounterCommand c
  | .dma c => renderDmaCommand c
  | .programMceStripe c => .ok (renderProgramMceStripeCommand c)
  | .configMceif c => .ok (renderConfigMceifCommand c)
  | .startMceStripe c => .ok (renderStartMceStripeCommand c)
  | .loadPleCodeIntoPleSram c => .ok (renderLoadPleCodeIntoPleSramCommand c)
  | .startPleStripe c => .ok (renderStartPleStripeCommand c)

/-- One walked command queue of a cascade: the enclosing element and an
index comment before every command (Parse(Cascade), lines 734-772). -/
def renderQueue (label : String) (tagName : String) (cs : List CsCommand) : Except ParseError String := do
  let lines ← cs.enum.mapM (fun p => do
    let s ← renderCommand p.snd
    Except.ok (commentLine 3 (label ++ " Command " ++ toString p.fst) ++ s))
  .ok (xmlOpen 2 tagName ++ String.join lines ++ xmlClose 2 tagName)

/-- Parse(Cascade) (lines 706-775): agents (with index comments), then
the four command queues. -/
def renderCascade (c : CsCascade) : Except ParseError String := do
  let agentLines ← c.agents.enum.mapM (fun p => do
    let s ← renderAgent p.snd
    Except.ok (commentLine 3 ("Agent " ++ toString p.fst) ++ s))
  let rd ← renderQueue "DmaRd" "DMA_RD_COMMANDS" c.dmaRdCommands
  let wr ← renderQueue "DmaWr" "DMA_WR_COMMANDS" c.dmaWrCommands
  let mce ← renderQueue "Mce" "MCE_COMMANDS" c.mceCommands
  let ple ← renderQueue "Ple" "PLE_COMMANDS" c.pleCommands
  .ok (xmlOpen 1 "CASCADE" ++
    xmlOpen 2 "AGENTS" ++ String.join agentLines ++ xmlClose 2 "AGENTS" ++
    rd ++ wr ++ mce ++ ple ++
    xmlClose 1 "CASCADE")

/-- One top-level command (the opcode dispatch of ParseBinary, lines
793-816). -/
def renderTopCommand : TopCommand → Except ParseError String
  | .dumpDram d => .ok (renderDumpDram d)
  | .dumpSram filename => .ok (renderDumpSram filename)
  | .cascade c => renderCascade c

/-- The XML prologue and STREAM element with the three version
attributes (ParseBinary, lines 780-786). -/
def xmlHeader (a b c : Nat) : String :=
  "<?xml version=\"1.0\" encoding=\"utf-8\"?>\n" ++
  "<STREAM VERSION_MAJOR=\"" ++ toString a ++ "\" VERSION_MINOR=\"" ++ toString b ++
    "\" VERSION_PATCH=\"" ++ toString c ++ "\">\n"

/-- ParseBinary rendering (lines 778-820): the header, an index comment
and the rendered payload per top-level command, the closing STREAM. -/
def renderText (x : CommandStreamData) : Except ParseError String := do
  let cmds ← x.commands.enum.mapM (fun p => do
    let s ← renderTopCommand p.snd
    Except.ok (commentLine 1 ("Command " ++ toString p.fst) ++ s))
  .ok (xmlHeader x.versionMajor x.versionMinor x.versionPatch ++
    String.join cmds ++ "</STREAM>\n")

/-- A small command stream exercising every payload: a DRAM dump, an SRAM
dump, and a cascade holding one agent of each role and commands of every
variant spread over the four queues. -/
def exampleStream : CommandStreamData :=
  ⟨1, 2, 3,
    [.dumpDram ⟨7, [104, 105]⟩,
     .dumpSram [97],
     .cascade
       ⟨[⟨4, .ifm ⟨1, 2, 3, 4⟩⟩, ⟨2, .wgt ⟨5⟩⟩,
         ⟨8, .mce ⟨0, 5, 1, 2, 3, 4, 5, 6, 7, 8, 9, 10⟩⟩, ⟨1, .pleL ⟨6⟩⟩,
         ⟨8, .pleS ⟨2, 6, 64⟩⟩, ⟨4, .ofm ⟨9, 1, 2, 3⟩⟩],
        [.dma ⟨1, 0, 16, 0, 0, 0, 0, 0, 0, 256, 0⟩, .waitForCounter ⟨0, 5⟩,
         .dma ⟨2, 1, 0, 0, 0, 0, 0, 0, 0, 0, 0⟩, .dma ⟨6, 3, 0, 0, 0, 0, 0, 0, 0, 0, 0⟩],
        [.dma ⟨9, 5, 0, 0, 0, 0, 0, 0, 0, 0, 0⟩],
        [.programMceStripe ⟨2, [[1, 2]], 0, 0, [[3]], 0, 0, 0, 0, 0, 0, 0, [4, 5], [[6]], 2⟩,
         .configMceif ⟨2⟩, .startMceStripe ⟨2, 3⟩],
        [.loadPleCodeIntoPleSram ⟨4⟩, .startPleStripe ⟨4, [7, 8]⟩]⟩]⟩

/-! Theorems.  Helper lemmas come first, then one theorem per claim (with
its witness or counterexample where required). -/

/-- Unsigned subtraction agrees with Nat subtraction in range. -/
theorem usizeSub_eq_sub (a b : Nat) (hba : b ≤ a) (ha : a < 2 ^ 64) :
    usizeSub a b = a - b := by
  unfold usizeSub
  rw [Nat.mod_eq_of_lt (lt_of_le_of_lt hba ha)]
  have h1 : a + (2 ^ 64 - b) = (a - b) + 2 ^ 64 := by omega
  rw [h1, Nat.add_mod_right, Nat.mod_eq_of_lt (by omega)]

/-- Unsigned subtraction of an index from itself is zero. -/
theorem usizeSub_self (a : Nat) : usizeSub a a = 0 := by
  unfold usizeSub
  have hb : a % 2 ^ 64 ≤ a := Nat.mod_le a (2 ^ 64)
  have h1 : a + (2 ^ 64 - a % 2 ^ 64) = (a - a % 2 ^ 64) + 2 ^ 64 := by
    have := Nat.mod_lt a (y := 2 ^ 64) (by norm_num)
    omega
  rw [h1, Nat.add_mod_right]
  omega

/-- Every arm of the FillProducerAgentDependency switch either leaves the
relative agent id unchanged or sets it to zero. -/
theorem fillProducerAgentDependencySwitch_keeps_zero
    (agents : List AgentDescAndDeps) (dep0 : Dependency)
    (cT : AgentType) (cId : Nat) (pT : AgentType) (pId : Nat)
    (pop : PleOperation) (dt : DependencyType) (d : Dependency)
    (h0 : dep0.relativeAgentId = 0)
    (h : fillProducerAgentDependencySwitch agents dep0 cT cId pT pId pop dt =
      Except.ok d) :
    d.relativeAgentId = 0 := by
  unfold fillProducerAgentDependencySwitch at h
  cases cT <;> cases pT <;>
    (try simp only [bind, Except.bind, pure, Except.pure, assertThat] at h) <;>
    (repeat' split at h) <;>
    (try simp only [bind, Except.bind, pure, Except.pure, Except.ok.injEq] at h) <;>
    (try subst h) <;>
    simp_all [Except.pure]

/-- The post-processed dependency keeps a zero relative agent id. -/
theorem fillCalculateRemaining_keeps_zero (dep : Dependency)
    (h0 : dep.relativeAgentId = 0) :
    fillCalculateRemaining dep = dep := by
  unfold fillCalculateRemaining
  simp [h0]

/-- The filled producer dependency keeps a zero relative agent id. -/
theorem fillProducerAgentDependency_keeps_zero_relativeAgentId
    (agents : List AgentDescAndDeps) (dep0 : Dependency)
    (cT : AgentType) (cId : Nat) (pT : AgentType) (pId : Nat)
    (pop : PleOperation) (dt : DependencyType) (d : Dependency)
    (h0 : dep0.relativeAgentId = 0)
    (h : fillProducerAgentDependency agents dep0 cT cId pT pId pop dt = Except.ok d) :
    d.relativeAgentId = 0 := by
  unfold fillProducerAgentDependency at h
  cases hsw : fillProducerAgentDependencySwitch agents dep0 cT cId pT pId pop dt with
  | error e => simp [hsw, bind, Except.bind] at h
  | ok dep =>
    have hz := fillProducerAgentDependencySwitch_keeps_zero agents dep0 cT cId pT pId
      pop dt dep h0 hsw
    rw [hsw] at h
    simp only [bind, Except.bind, pure, Except.pure, Except.ok.injEq] at h
    rw [fillCalculateRemaining_keeps_zero dep hz] at h
    subst h
    exact hz

/-- C2: for every dependency edge created (Read-After-Write,
Write-After-Read, or Schedule-Time), a relative agent distance larger than
the representable range makes construction fail with an error, and within
the range the stored relative id is the exact distance (the cast never
truncates a value that passed the check). -/
theorem claim_C2_relative_id_bound
    (agents : List AgentDescAndDeps) (cT pT : AgentType) (cId pId : Nat)
    (pop : PleOperation)
    (h : g_MaxRelativeAgentPosition < usizeSub cId pId) :
    (∃ msg, addReadAfterWriteDependency agents cT cId pT pId pop =
        Except.error (GenError.assertionFailure msg)) ∧
    (∃ msg, addWriteAfterReadDependency agents cT cId pT pId pop =
        Except.error (GenError.assertionFailure msg)) ∧
    (∃ msg, addScheduleTimeDependency agents cT cId pT pId pop =
        Except.error (GenError.assertionFailure msg)) ∧
    (∀ n, n ≤ g_MaxRelativeAgentPosition → relativeAgentIdCast n = n) := by
  have hnot : ¬ usizeSub cId pId ≤ g_MaxRelativeAgentPosition := Nat.not_le.mpr h
  refine ⟨⟨"relativeAgentId within g_MaxRelativeAgentPosition", ?_⟩,
    ⟨"relativeAgentId within g_MaxRelativeAgentPosition", ?_⟩,
    ⟨"relativeAgentId within g_MaxRelativeAgentPosition", ?_⟩, ?_⟩
  · unfold addReadAfterWriteDependency
    simp [assertThat, hnot, bind, Except.bind]
  · unfold addWriteAfterReadDependency
    simp [assertThat, hnot, bind, Except.bind]
  · unfold addScheduleTimeDependency
    simp [assertThat, hnot, bind, Except.bind]
  · intro n hn
    unfold relativeAgentIdCast
    exact Nat.mod_eq_of_lt (by
      unfold g_MaxRelativeAgentPosition at hn; omega)

/-- C2 witness: a concrete edge at distance 300 fails on all three
constructors, and 200 is stored exactly. -/
theorem claim_C2_relative_id_bound_witness :
    g_MaxRelativeAgentPosition < usizeSub 300 0 ∧
    ((∃ msg, addReadAfterWriteDependency [] AgentType.IFM_STREAMER 300
        AgentType.OFM_STREAMER 0 PleOperation.PASSTHROUGH =
        Except.error (GenError.assertionFailure msg)) ∧
      (∃ msg, addWriteAfterReadDependency [] AgentType.IFM_STREAMER 300
        AgentType.OFM_STREAMER 0 PleOperation.PASSTHROUGH =
        Except.error (GenError.assertionFailure msg)) ∧
      (∃ msg, addScheduleTimeDependency [] AgentType.IFM_STREAMER 300
        AgentType.OFM_STREAMER 0 PleOperation.PASSTHROUGH =
        Except.error (GenError.assertionFailure msg)) ∧
      (∀ n, n ≤ g_MaxRelativeAgentPosition → relativeAgentIdCast n = n)) :=
  ⟨by decide, claim_C2_relative_id_bound [] AgentType.IFM_STREAMER
    AgentType.OFM_STREAMER 300 0 PleOperation.PASSTHROUGH (by decide)⟩

/-- The post-processing of a filled dependency is the identity (both
modelled DependencyUtils passes are identities). -/
theorem fillCalculateRemaining_eq_self (dep : Dependency) :
    fillCalculateRemaining dep = dep := by
  unfold fillCalculateRemaining
  unfold DependencyUtils.calculateRemainingAgentDependencies
    DependencyUtils.calculateInnerRatio
  split <;> rfl

/-- Every arm of the FillConsumerAgentDependency switch leaves the relative
agent id unchanged. -/
theorem fillConsumerAgentDependencySwitch_relativeAgentId
    (agents : List AgentDescAndDeps) (dep0 : Dependency)
    (cT : AgentType) (cId : Nat) (pT : AgentType) (pId : Nat)
    (pop : PleOperation) (d : Dependency)
    (h : fillConsumerAgentDependencySwitch agents dep0 cT cId pT pId pop =
      Except.ok d) :
    d.relativeAgentId = dep0.relativeAgentId := by
  unfold fillConsumerAgentDependencySwitch at h
  cases cT <;> cases pT <;>
    (try simp only [bind, Except.bind, pure, Except.pure, assertThat] at h) <;>
    (repeat' split at h) <;>
    (try simp only [bind, Except.bind, pure, Except.pure, Except.ok.injEq] at h) <;>
    (try subst h) <;>
    simp_all [Except.pure]

/-- A filled consumer dependency carries the relative agent id it was
seeded with. -/
theorem fillConsumerAgentDependency_relativeAgentId
    (agents : List AgentDescAndDeps) (dep0 : Dependency)
    (cT : AgentType) (cId : Nat) (pT : AgentType) (pId : Nat)
    (pop : PleOperation) (d : Dependency)
    (h : fillConsumerAgentDependency agents dep0 cT cId pT pId pop = Except.ok d) :
    d.relativeAgentId = dep0.relativeAgentId := by
  unfold fillConsumerAgentDependency at h
  cases hsw : fillConsumerAgentDependencySwitch agents dep0 cT cId pT pId pop with
  | error e => simp [hsw, bind, Except.bind] at h
  | ok dep =>
    rw [hsw] at h
    simp only [bind, Except.bind, pure, Except.pure, Except.ok.injEq,
      fillCalculateRemaining_eq_self] at h
    subst h
    exact fillConsumerAgentDependencySwitch_relativeAgentId agents dep0 cT cId pT pId
      pop dep hsw

/-- The shape of a successful AddReadAfterWriteDependency: the consumer
agent gains exactly one read dependency, carrying the exact relative id. -/
theorem addReadAfterWriteDependency_ok_shape
    (agents : List AgentDescAndDeps) (cT : AgentType) (cId : Nat)
    (pT : AgentType) (pId : Nat) (pop : PleOperation)
    (agentsOut : List AgentDescAndDeps)
    (h : addReadAfterWriteDependency agents cT cId pT pId pop = Except.ok agentsOut) :
    ∃ d, d.relativeAgentId = relativeAgentIdCast (usizeSub cId pId) ∧
      agentsOut = updateAgentDeps agents cId (fun deps =>
        { deps with readDependencies := deps.readDependencies ++ [d] }) := by
  unfold addReadAfterWriteDependency at h
  by_cases hb : usizeSub cId pId ≤ g_MaxRelativeAgentPosition
  · cases hf : fillConsumerAgentDependency agents
      { Dependency.zeroed with relativeAgentId := relativeAgentIdCast (usizeSub cId pId) }
      cT cId pT pId pop with
    | error e =>
      simp [assertThat, hb, bind, Except.bind, hf, pure, Except.pure] at h
    | ok d =>
      have hrel := fillConsumerAgentDependency_relativeAgentId agents _ cT cId pT pId
        pop d hf
      simp [assertThat, hb, bind, Except.bind, hf, pure, Except.pure] at h
      exact ⟨d, hrel, h.symm⟩
  · simp [assertThat, hb, bind, Except.bind] at h

/-- C4 counterexample: the claim fails for plain Read-After-Write edges.
AddReadAfterWriteDependency pushes the new dependency unconditionally, so a
self-referential call (consumer id = producer id = 0, giving a computed
relative agent id of zero) stores an edge with relativeAgentId = 0 in the
agent's read dependency set instead of eliminating it. -/
theorem claim_C4_counterexample :
    addReadAfterWriteDependency
      [⟨⟨1, AgentData.ifm ⟨⟨⟨1, 1, 1⟩, 8⟩⟩⟩, AgentDependencyInfo.empty⟩]
      AgentType.IFM_STREAMER 0 AgentType.OFM_STREAMER 0 PleOperation.PASSTHROUGH =
    Except.ok
      [⟨⟨1, AgentData.ifm ⟨⟨⟨1, 1, 1⟩, 8⟩⟩⟩,
        ⟨[{ relativeAgentId := 0, outerRatio := ⟨1, 1⟩, innerRatio := ⟨1, 1⟩,
            boundary := 0 }], [], []⟩⟩] := by
  rfl

/-- C4 (amended): the zero-relative-id elimination holds for Write-After-Read
and Schedule-Time dependencies: a WAR or Schedule-Time edge requested between
a consumer and producer with the same agent id (computed relative id zero) is
never stored, whatever the agent types.  Plain Read-After-Write edges are
pushed without the zero check (see the counterexample); only the unused
SRAM-overlap variant of the RAW constructor has it. -/
theorem claim_C4_amended_zero_war_st_eliminated
    (agents : List AgentDescAndDeps) (cT pT : AgentType) (cId : Nat)
    (pop : PleOperation) (s1 s2 : List AgentDescAndDeps)
    (h1 : addWriteAfterReadDependency agents cT cId pT cId pop = Except.ok s1)
    (h2 : addScheduleTimeDependency agents cT cId pT cId pop = Except.ok s2) :
    s1 = agents ∧ s2 = agents := by
  have h0 : ({ Dependency.zeroed with
      relativeAgentId := relativeAgentIdCast (usizeSub cId cId) } :
      Dependency).relativeAgentId = 0 := by
    simp [usizeSub_self, relativeAgentIdCast]
  constructor
  · unfold addWriteAfterReadDependency at h1
    cases hf : fillProducerAgentDependency agents
      { Dependency.zeroed with relativeAgentId := relativeAgentIdCast (usizeSub cId cId) }
      cT cId pT cId pop DependencyType.Write with
    | error e =>
      rw [usizeSub_self] at hf
      simp [assertThat, usizeSub_self, g_MaxRelativeAgentPosition, bind, Except.bind,
        hf, pure, Except.pure] at h1
    | ok d =>
      have hd : d.relativeAgentId = 0 :=
        fillProducerAgentDependency_keeps_zero_relativeAgentId agents _ cT cId pT cId
          pop DependencyType.Write d h0 hf
      rw [usizeSub_self] at hf
      simp [assertThat, usizeSub_self, g_MaxRelativeAgentPosition, bind, Except.bind,
        hf, hd, pure, Except.pure] at h1
      exact h1.symm
  · unfold addScheduleTimeDependency at h2
    cases hf : fillProducerAgentDependency agents
      { Dependency.zeroed with relativeAgentId := relativeAgentIdCast (usizeSub cId cId) }
      cT cId pT cId pop DependencyType.Schedule with
    | error e =>
      rw [usizeSub_self] at hf
      simp [assertThat, usizeSub_self, g_MaxRelativeAgentPosition, bind, Except.bind,
        hf, pure, Except.pure] at h2
    | ok d =>
      have hd : d.relativeAgentId = 0 :=
        fillProducerAgentDependency_keeps_zero_relativeAgentId agents _ cT cId pT cId
          pop DependencyType.Schedule d h0 hf
      rw [usizeSub_self] at hf
      simp [assertThat, usizeSub_self, g_MaxRelativeAgentPosition, bind, Except.bind,
        hf, hd, pure, Except.pure] at h2
      exact h2.symm

/-- C4 (amended) witness: a concrete self-referential WAR and Schedule-Time
request on a one-agent vector leaves the vector unchanged. -/
theorem claim_C4_amended_zero_war_st_eliminated_witness :
    ([⟨⟨1, AgentData.ifm ⟨⟨⟨1, 1, 1⟩, 8⟩⟩⟩, AgentDependencyInfo.empty⟩] :
        List AgentDescAndDeps) =
      [⟨⟨1, AgentData.ifm ⟨⟨⟨1, 1, 1⟩, 8⟩⟩⟩, AgentDependencyInfo.empty⟩] ∧
    ([⟨⟨1, AgentData.ifm ⟨⟨⟨1, 1, 1⟩, 8⟩⟩⟩, AgentDependencyInfo.empty⟩] :
        List AgentDescAndDeps) =
      [⟨⟨1, AgentData.ifm ⟨⟨⟨1, 1, 1⟩, 8⟩⟩⟩, AgentDependencyInfo.empty⟩] :=
  claim_C4_amended_zero_war_st_eliminated
    [⟨⟨1, AgentData.ifm ⟨⟨⟨1, 1, 1⟩, 8⟩⟩⟩, AgentDependencyInfo.empty⟩]
    AgentType.OFM_STREAMER AgentType.IFM_STREAMER 0 PleOperation.PASSTHROUGH
    _ _ (by rfl) (by rfl)

/-- C5: the mirror property fails in the WeightStreamer-producer /
MceScheduler-consumer pairing with no weight reuse (ifmChannels larger
than 1).  The consumer Read-After-Write edge carries innerRatio
(other 1, self 1), so the mirrored producer edge would carry
(other 1, self 1) as well; but FillProducerAgentDependency assigns
innerRatio.other twice (a slip, against its own comment stating a 1:1
dependency) and leaves innerRatio.self at its zero initialization, so the
producer Write-After-Read edge carries (other 1, self 0), which is not the
mirror of the consumer edge.  The outer ratios are correctly mirrored. -/
theorem claim_C5_mirrored_ratios_code_bug :
    fillConsumerAgentDependency
        [⟨⟨4, AgentData.wgt ⟨⟨2, 2⟩⟩⟩, AgentDependencyInfo.empty⟩,
          ⟨⟨8, AgentData.mce ⟨⟨2, 2, 2, 2⟩, MceOperation.CONVOLUTION⟩⟩,
            AgentDependencyInfo.empty⟩]
        { Dependency.zeroed with relativeAgentId := 1 }
        AgentType.MCE_SCHEDULER 1 AgentType.WGT_STREAMER 0 PleOperation.PASSTHROUGH =
      Except.ok ⟨1, ⟨4, 8⟩, ⟨1, 1⟩, 0⟩ ∧
    fillProducerAgentDependency
        [⟨⟨4, AgentData.wgt ⟨⟨2, 2⟩⟩⟩, AgentDependencyInfo.empty⟩,
          ⟨⟨8, AgentData.mce ⟨⟨2, 2, 2, 2⟩, MceOperation.CONVOLUTION⟩⟩,
            AgentDependencyInfo.empty⟩]
        { Dependency.zeroed with relativeAgentId := 1 }
        AgentType.MCE_SCHEDULER 1 AgentType.WGT_STREAMER 0 PleOperation.PASSTHROUGH
        DependencyType.Write =
      Except.ok ⟨1, ⟨8, 4⟩, ⟨1, 0⟩, 0⟩ ∧
    ({ other := 1, self := 0 } : DependencyRatio) ≠ ⟨1, 1⟩ := by
  refine ⟨by rfl, by rfl, by decide⟩

/-- C6: an MCE scheduler producer with 3 stripes (split in height) feeding a
PLE scheduler consumer with 2 stripes in the same axis.  The stripe counts
do not divide evenly (2 mod 3 is 2, not 0), so both the consumer
Read-After-Write edge and the producer Schedule-Time edge carry
boundary = 1, and the inner ratios are computed from rounded-up divisions
of the stripe counts (DivRoundUp 2 3 = 1, rounded up from two thirds, and
DivRoundUp 3 2 = 2, rounded up from one and a half). -/
theorem claim_C6_uneven_stripe_ratio :
    fillConsumerAgentDependency
        [⟨⟨3, AgentData.mce ⟨⟨3, 1, 1, 1⟩, MceOperation.CONVOLUTION⟩⟩,
            AgentDependencyInfo.empty⟩,
          ⟨⟨2, AgentData.pleS ⟨⟨2, 1, 1⟩, 8⟩⟩, AgentDependencyInfo.empty⟩]
        { Dependency.zeroed with relativeAgentId := 1 }
        AgentType.PLE_SCHEDULER 1 AgentType.MCE_SCHEDULER 0 PleOperation.PASSTHROUGH =
      Except.ok ⟨1, ⟨3, 2⟩, ⟨1, 1⟩, 1⟩ ∧
    fillProducerAgentDependency
        [⟨⟨3, AgentData.mce ⟨⟨3, 1, 1, 1⟩, MceOperation.CONVOLUTION⟩⟩,
            AgentDependencyInfo.empty⟩,
          ⟨⟨2, AgentData.pleS ⟨⟨2, 1, 1⟩, 8⟩⟩, AgentDependencyInfo.empty⟩]
        { Dependency.zeroed with relativeAgentId := 1 }
        AgentType.PLE_SCHEDULER 1 AgentType.MCE_SCHEDULER 0 PleOperation.PASSTHROUGH
        DependencyType.Schedule =
      Except.ok ⟨1, ⟨2, 3⟩, ⟨1, 1⟩, 1⟩ ∧
    DivRoundUp 2 3 = 1 ∧ DivRoundUp 3 2 = 2 := by
  refine ⟨by rfl, by rfl, by rfl, by rfl⟩

/-- C7: a Write-After-Read edge requested from a PLE scheduler producer
onto a following MCE scheduler consumer whose total stripe count is 1 is
suppressed (the producer agent is left unchanged), while the corresponding
Schedule-Time edge is still recorded on the producer. -/
theorem claim_C7_war_suppressed_for_size_one_consumer
    (agents : List AgentDescAndDeps) (cId pId : Nat) (pop : PleOperation)
    (hcp : pId < cId) (hlt : cId < 2 ^ 64)
    (hbound : cId - pId ≤ g_MaxRelativeAgentPosition)
    (hstripes : (agents.getD cId defaultAgentDescAndDeps).agent.numStripesTotal = 1) :
    addWriteAfterReadDependency agents AgentType.MCE_SCHEDULER cId
      AgentType.PLE_SCHEDULER pId pop = Except.ok agents ∧
    ∃ d, d.relativeAgentId = cId - pId ∧
      addScheduleTimeDependency agents AgentType.MCE_SCHEDULER cId
        AgentType.PLE_SCHEDULER pId pop =
      Except.ok (updateAgentDeps agents pId (fun deps =>
        { deps with scheduleDependencies := deps.scheduleDependencies ++ [d] })) := by
  have hsub : usizeSub cId pId = cId - pId := usizeSub_eq_sub cId pId (le_of_lt hcp) hlt
  have hne : cId - pId ≠ 0 := Nat.sub_ne_zero_of_lt hcp
  have hcast : relativeAgentIdCast (cId - pId) = cId - pId := by
    unfold relativeAgentIdCast
    exact Nat.mod_eq_of_lt (by
      unfold g_MaxRelativeAgentPosition at hbound; omega)
  have hok : (usizeSub cId pId ≤ g_MaxRelativeAgentPosition) = True := by
    rw [hsub]; simp [hbound]
  have hstripes2 := hstripes
  simp at hstripes2
  constructor
  · have hswitch : fillProducerAgentDependencySwitch agents
        { Dependency.zeroed with relativeAgentId := relativeAgentIdCast (usizeSub cId pId) }
        AgentType.MCE_SCHEDULER cId AgentType.PLE_SCHEDULER pId pop
        DependencyType.Write =
        Except.ok { Dependency.zeroed with relativeAgentId := 0 } := by
      unfold fillProducerAgentDependencySwitch
      simp [hstripes, hstripes2, pure, Except.pure]
    unfold addWriteAfterReadDependency
    simp [assertThat, hok, bind, Except.bind, pure, Except.pure,
      fillProducerAgentDependency, hswitch, fillCalculateRemaining_eq_self]
  · have hswitch : ∃ d, fillProducerAgentDependencySwitch agents
        { Dependency.zeroed with relativeAgentId := relativeAgentIdCast (usizeSub cId pId) }
        AgentType.MCE_SCHEDULER cId AgentType.PLE_SCHEDULER pId pop
        DependencyType.Schedule = Except.ok d ∧
        d.relativeAgentId = relativeAgentIdCast (usizeSub cId pId) := by
      unfold fillProducerAgentDependencySwitch
      simp [pure, Except.pure]
    obtain ⟨d, hd, hdrel⟩ := hswitch
    refine ⟨d, by rw [hdrel, hsub, hcast], ?_⟩
    unfold addScheduleTimeDependency
    simp only [assertThat, hok, if_true, bind, Except.bind, pure, Except.pure,
      fillProducerAgentDependency, hd, fillCalculateRemaining_eq_self]
    have : d.relativeAgentId ≠ 0 := by rw [hdrel, hsub, hcast]; exact hne
    simp [this]

/-- C7 witness: a concrete 4-stripe PLE scheduler (agent 0) followed by a
1-stripe MCE scheduler (agent 1); the WAR edge is suppressed and the
Schedule-Time edge is stored. -/
theorem claim_C7_war_suppressed_for_size_one_consumer_witness :
    addWriteAfterReadDependency
      [⟨⟨4, AgentData.pleS ⟨⟨2, 2, 1⟩, 8⟩⟩, AgentDependencyInfo.empty⟩,
        ⟨⟨1, AgentData.mce ⟨⟨1, 1, 1, 1⟩, MceOperation.CONVOLUTION⟩⟩,
          AgentDependencyInfo.empty⟩]
      AgentType.MCE_SCHEDULER 1 AgentType.PLE_SCHEDULER 0 PleOperation.PASSTHROUGH =
      Except.ok
        [⟨⟨4, AgentData.pleS ⟨⟨2, 2, 1⟩, 8⟩⟩, AgentDependencyInfo.empty⟩,
          ⟨⟨1, AgentData.mce ⟨⟨1, 1, 1, 1⟩, MceOperation.CONVOLUTION⟩⟩,
            AgentDependencyInfo.empty⟩] ∧
    ∃ d, d.relativeAgentId = 1 - 0 ∧
      addScheduleTimeDependency
        [⟨⟨4, AgentData.pleS ⟨⟨2, 2, 1⟩, 8⟩⟩, AgentDependencyInfo.empty⟩,
          ⟨⟨1, AgentData.mce ⟨⟨1, 1, 1, 1⟩, MceOperation.CONVOLUTION⟩⟩,
            AgentDependencyInfo.empty⟩]
        AgentType.MCE_SCHEDULER 1 AgentType.PLE_SCHEDULER 0 PleOperation.PASSTHROUGH =
      Except.ok (updateAgentDeps
        [⟨⟨4, AgentData.pleS ⟨⟨2, 2, 1⟩, 8⟩⟩, AgentDependencyInfo.empty⟩,
          ⟨⟨1, AgentData.mce ⟨⟨1, 1, 1, 1⟩, MceOperation.CONVOLUTION⟩⟩,
            AgentDependencyInfo.empty⟩] 0 (fun deps =>
        { deps with scheduleDependencies := deps.scheduleDependencies ++ [d] })) :=
  claim_C7_war_suppressed_for_size_one_consumer
    [⟨⟨4, AgentData.pleS ⟨⟨2, 2, 1⟩, 8⟩⟩, AgentDependencyInfo.empty⟩,
      ⟨⟨1, AgentData.mce ⟨⟨1, 1, 1, 1⟩, MceOperation.CONVOLUTION⟩⟩,
        AgentDependencyInfo.empty⟩]
    1 0 PleOperation.PASSTHROUGH (by decide) (by norm_num) (by decide) (by rfl)

/-- C10: every PLE kernel loader agent is created with a total stripe
count of exactly 1, whatever the PLE operation's configuration, and every
dependency ratio computed against a PLE loader treats its run as a single
stripe: the PleS-on-PleL read dependency has outer ratio other = 1, and
the producer-side PleL edges (under a PleS or MceS consumer) have outer
(and, for MceS, inner) ratio self = 1. -/
theorem claim_C10_ple_loader_single_stripe :
    (∀ (st : GenState) (pleOp : PleOpDesc),
      (addPleLoaderToCommandStream st pleOp).1.agents =
        st.agents ++
          [⟨⟨1, AgentData.pleL ⟨pleOp.pleKernelId⟩⟩, AgentDependencyInfo.empty⟩] ∧
      (addPleLoaderToCommandStream st pleOp).2 = st.agents.length) ∧
    (∀ (agents : List AgentDescAndDeps) (dep0 : Dependency) (cId pId : Nat)
        (pop : PleOperation), ∃ d,
      fillConsumerAgentDependencySwitch agents dep0 AgentType.PLE_SCHEDULER cId
        AgentType.PLE_LOADER pId pop = Except.ok d ∧ d.outerRatio.other = 1) ∧
    (∀ (agents : List AgentDescAndDeps) (dep0 : Dependency) (cId pId : Nat)
        (pop : PleOperation) (dt : DependencyType), ∃ d,
      fillProducerAgentDependencySwitch agents dep0 AgentType.PLE_SCHEDULER cId
        AgentType.PLE_LOADER pId pop dt = Except.ok d ∧ d.outerRatio.self = 1) ∧
    (∀ (agents : List AgentDescAndDeps) (dep0 : Dependency) (cId pId : Nat)
        (pop : PleOperation) (dt : DependencyType), ∃ d,
      fillProducerAgentDependencySwitch agents dep0 AgentType.MCE_SCHEDULER cId
        AgentType.PLE_LOADER pId pop dt = Except.ok d ∧ d.outerRatio.self = 1 ∧
        d.innerRatio.self = 1) := by
  refine ⟨fun st pleOp => ⟨rfl, rfl⟩, ?_, ?_, ?_⟩
  · intro agents dep0 cId pId pop
    exact ⟨_, rfl, rfl⟩
  · intro agents dep0 cId pId pop dt
    exact ⟨_, rfl, rfl⟩
  · intro agents dep0 cId pId pop dt
    exact ⟨_, rfl, rfl, rfl⟩

/-- C3 counterexample: in the fence example graph, op 1 (agent 1, an OFM
streamer writing a full-tensor result to DRAM) sets all three fence
markers.  The next IFM streamer (op 2, agent 2) records the conservative
RAW edge (relative id 1) against agent 1 and clears the marker, but the
IFM streamer created after it (op 3, agent 3) records no read dependency
at all — so not every subsequent input-streamer agent records a RAW edge
against the fence operation's agent, contradicting the claim. -/
theorem claim_C3_counterexample :
    ((List.range 2).foldlM (generateStep fenceExampleGraph) GenState.initial).map
        (fun st => (st.fenceOpForIfmS, st.fenceOpForWgtS, st.fenceOpForPleL)) =
      Except.ok (some 1, some 1, some 1) ∧
    (generate fenceExampleGraph).map (fun st => st.agents.map (fun a =>
        (a.agent.data.agentType, a.deps.readDependencies.map
          (fun d => d.relativeAgentId)))) =
      Except.ok [(AgentType.IFM_STREAMER, []), (AgentType.OFM_STREAMER, [1]),
        (AgentType.IFM_STREAMER, [1]), (AgentType.IFM_STREAMER, []),
        (AgentType.PLE_SCHEDULER, [2, 1])] :=
  ⟨rfl, rfl⟩

/-- C3 (amended): the conservative fence mechanism.  (a) After processing
an operation whose produced buffer is a full-tensor result that is not a
DMA transfer into SRAM, all three fence markers point at that operation.
(b, c, d) The next IFM streamer, weight streamer, or PLE kernel loader
agent created while the corresponding marker is set records a conservative
Read-After-Write dependency (with the exact relative id against the fence
operation's agent) and clears that marker.  (e) Once a marker is cleared,
the fence block stores nothing, so later agents of the same type do not
record the edge — not every subsequent agent does, only the first of each
type. -/
theorem claim_C3_amended_fence_first_agent_of_each_type :
    (∀ (g : OpGraph) (st st' : GenState) (i b : Nat),
      generateStep g st i = Except.ok st' →
      g.outputOf i = some b →
      (g.buffer b).isFullTensor →
      ¬((g.op i).isDma ∧ (g.buffer b).location = Location.Sram) →
      st'.fenceOpForIfmS = some i ∧ st'.fenceOpForWgtS = some i ∧
        st'.fenceOpForPleL = some i) ∧
    (∀ (g : OpGraph) (st st' : GenState) (aid f : Nat),
      st.fenceOpForIfmS = some f →
      applyIfmSFence g st aid = Except.ok st' →
      st'.fenceOpForIfmS = none ∧
      ∃ fid d, assocLookup st.opToAgentId f = some fid ∧
        d.relativeAgentId = relativeAgentIdCast (usizeSub aid fid) ∧
        st'.agents = updateAgentDeps st.agents aid (fun deps =>
          { deps with readDependencies := deps.readDependencies ++ [d] })) ∧
    (∀ (g : OpGraph) (st st' : GenState) (aid f : Nat),
      st.fenceOpForWgtS = some f →
      applyWgtSFence g st aid = Except.ok st' →
      st'.fenceOpForWgtS = none ∧
      ∃ fid d, assocLookup st.opToAgentId f = some fid ∧
        d.relativeAgentId = relativeAgentIdCast (usizeSub aid fid) ∧
        st'.agents = updateAgentDeps st.agents aid (fun deps =>
          { deps with readDependencies := deps.readDependencies ++ [d] })) ∧
    (∀ (g : OpGraph) (st st' : GenState) (aid f : Nat),
      st.fenceOpForPleL = some f →
      applyPleLFence g st aid = Except.ok st' →
      st'.fenceOpForPleL = none ∧
      ∃ fid d, assocLookup st.opToAgentId f = some fid ∧
        d.relativeAgentId = relativeAgentIdCast (usizeSub aid fid) ∧
        st'.agents = updateAgentDeps st.agents aid (fun deps =>
          { deps with readDependencies := deps.readDependencies ++ [d] })) ∧
    (∀ (g : OpGraph) (st : GenState) (aid : Nat),
      st.fenceOpForIfmS = none → applyIfmSFence g st aid = Except.ok st) ∧
    (∀ (g : OpGraph) (st : GenState) (aid : Nat),
      st.fenceOpForWgtS = none → applyWgtSFence g st aid = Except.ok st) ∧
    (∀ (g : OpGraph) (st : GenState) (aid : Nat),
      st.fenceOpForPleL = none → applyPleLFence g st aid = Except.ok st) := by
  refine ⟨?_, ?_, ?_, ?_, ?_, ?_, ?_⟩
  · intro g st st' i b h hout hfull hnot
    unfold generateStep at h
    cases hp : processOp g st i with
    | error e => simp [hp, bind, Except.bind] at h
    | ok st1 =>
      rw [hp] at h
      simp only [bind, Except.bind] at h
      rw [hout] at h
      have h2 : (if (g.buffer b).isFullTensor ∧
          ¬((g.op i).isDma ∧ (g.buffer b).location = Location.Sram) then
          (pure { st1 with fenceOpForIfmS := some i, fenceOpForPleL := some i, fenceOpForWgtS := some i } : Except GenError GenState)
        else pure st1) = Except.ok st' := h
      rw [if_pos ⟨hfull, hnot⟩] at h2
      simp only [pure, Except.pure, Except.ok.injEq] at h2
      subst h2
      exact ⟨rfl, rfl, rfl⟩
  · intro g st st' aid f hfence h
    unfold applyIfmSFence at h
    rw [hfence] at h
    have h2 : (do
        let fenceAgentId ← lookupAt st.opToAgentId f
        let agents ← addReadAfterWriteDependency st.agents AgentType.IFM_STREAMER aid
          ((st.agents.getD fenceAgentId defaultAgentDescAndDeps).agent.data.agentType)
          fenceAgentId (g.pleOpKind f)
        pure { st with agents := agents, fenceOpForIfmS := none }) = Except.ok st' := h
    clear h
    cases hl : lookupAt st.opToAgentId f with
    | error e => simp [hl, bind, Except.bind] at h2
    | ok fid =>
      rw [hl] at h2
      simp only [bind, Except.bind] at h2
      cases ha : addReadAfterWriteDependency st.agents AgentType.IFM_STREAMER aid
        ((st.agents.getD fid defaultAgentDescAndDeps).agent.data.agentType) fid
        (g.pleOpKind f) with
      | error e => rw [ha] at h2; simp at h2
      | ok agentsOut =>
        rw [ha] at h2
        simp only [pure, Except.pure, Except.ok.injEq] at h2
        subst h2
        obtain ⟨d, hd, hsh⟩ := addReadAfterWriteDependency_ok_shape _ _ _ _ _ _ _ ha
        have hal : assocLookup st.opToAgentId f = some fid := by
          unfold lookupAt at hl
          cases hx : assocLookup st.opToAgentId f with
          | none => rw [hx] at hl; simp [pure, Except.pure] at hl
          | some v => rw [hx] at hl; simp [pure, Except.pure] at hl; rw [hl]
        exact ⟨rfl, fid, d, hal, hd, hsh⟩
  · intro g st st' aid f hfence h
    unfold applyWgtSFence at h
    rw [hfence] at h
    have h2 : (do
        let fenceAgentId ← lookupAt st.opToAgentId f
        let agents ← addReadAfterWriteDependency st.agents AgentType.WGT_STREAMER aid
          ((st.agents.getD fenceAgentId defaultAgentDescAndDeps).agent.data.agentType)
          fenceAgentId (g.pleOpKind f)
        pure { st with agents := agents, fenceOpForWgtS := none }) = Except.ok st' := h
    clear h
    cases hl : lookupAt st.opToAgentId f with
    | error e => simp [hl, bind, Except.bind] at h2
    | ok fid =>
      rw [hl] at h2
      simp only [bind, Except.bind] at h2
      cases ha : addReadAfterWriteDependency st.agents AgentType.WGT_STREAMER aid
        ((st.agents.getD fid defaultAgentDescAndDeps).agent.data.agentType) fid
        (g.pleOpKind f) with
      | error e => rw [ha] at h2; simp at h2
      | ok agentsOut =>
        rw [ha] at h2
        simp only [pure, Except.pure, Except.ok.injEq] at h2
        subst h2
        obtain ⟨d, hd, hsh⟩ := addReadAfterWriteDependency_ok_shape _ _ _ _ _ _ _ ha
        have hal : assocLookup st.opToAgentId f = some fid := by
          unfold lookupAt at hl
          cases hx : assocLookup st.opToAgentId f with
          | none => rw [hx] at hl; simp [pure, Except.pure] at hl
          | some v => rw [hx] at hl; simp [pure, Except.pure] at hl; rw [hl]
        exact ⟨rfl, fid, d, hal, hd, hsh⟩
  · intro g st st' aid f hfence h
    unfold applyPleLFence at h
    rw [hfence] at h
    have h2 : (do
        let fenceAgentId ← lookupAt st.opToAgentId f
        let agents ← addReadAfterWriteDependency st.agents AgentType.PLE_LOADER aid
          ((st.agents.getD fenceAgentId defaultAgentDescAndDeps).agent.data.agentType)
          fenceAgentId (g.pleOpKind f)
        pure { st with agents := agents, fenceOpForPleL := none }) = Except.ok st' := h
    clear h
    cases hl : lookupAt st.opToAgentId f with
    | error e => simp [hl, bind, Except.bind] at h2
    | ok fid =>
      rw [hl] at h2
      simp only [bind, Except.bind] at h2
      cases ha : addReadAfterWriteDependency st.agents AgentType.PLE_LOADER aid
        ((st.agents.getD fid defaultAgentDescAndDeps).agent.data.agentType) fid
        (g.pleOpKind f) with
      | error e => rw [ha] at h2; simp at h2
      | ok agentsOut =>
        rw [ha] at h2
        simp only [pure, Except.pure, Except.ok.injEq] at h2
        subst h2
        obtain ⟨d, hd, hsh⟩ := addReadAfterWriteDependency_ok_shape _ _ _ _ _ _ _ ha
        have hal : assocLookup st.opToAgentId f = some fid := by
          unfold lookupAt at hl
          cases hx : assocLookup st.opToAgentId f with
          | none => rw [hx] at hl; simp [pure, Except.pure] at hl
          | some v => rw [hx] at hl; simp [pure, Except.pure] at hl; rw [hl]
        exact ⟨rfl, fid, d, hal, hd, hsh⟩
  · intro g st aid hn
    unfold applyIfmSFence
    rw [hn]
    rfl
  · intro g st aid hn
    unfold applyWgtSFence
    rw [hn]
    rfl
  · intro g st aid hn
    unfold applyPleLFence
    rw [hn]
    rfl

/-- C3 (amended) witness: the fence parts at concrete inputs.  Op 1 of the
fence example graph sets all three markers; in the prepared fence state
each of the three fence blocks records the conservative RAW edge and
clears its marker; from the initial state (markers clear) the blocks store
nothing. -/
theorem claim_C3_amended_fence_first_agent_of_each_type_witness :
    (fenceStepExample.fenceOpForIfmS = some 1 ∧
      fenceStepExample.fenceOpForWgtS = some 1 ∧
      fenceStepExample.fenceOpForPleL = some 1) ∧
    (fenceApplyIfmSExample.fenceOpForIfmS = none ∧
      ∃ fid d, assocLookup fenceWitnessState.opToAgentId 1 = some fid ∧
        d.relativeAgentId = relativeAgentIdCast (usizeSub 1 fid) ∧
        fenceApplyIfmSExample.agents = updateAgentDeps fenceWitnessState.agents 1
          (fun deps =>
            { deps with readDependencies := deps.readDependencies ++ [d] })) ∧
    (fenceApplyWgtSExample.fenceOpForWgtS = none ∧
      ∃ fid d, assocLookup fenceWitnessState.opToAgentId 1 = some fid ∧
        d.relativeAgentId = relativeAgentIdCast (usizeSub 1 fid) ∧
        fenceApplyWgtSExample.agents = updateAgentDeps fenceWitnessState.agents 1
          (fun deps =>
            { deps with readDependencies := deps.readDependencies ++ [d] })) ∧
    (fenceApplyPleLExample.fenceOpForPleL = none ∧
      ∃ fid d, assocLookup fenceWitnessState.opToAgentId 1 = some fid ∧
        d.relativeAgentId = relativeAgentIdCast (usizeSub 1 fid) ∧
        fenceApplyPleLExample.agents = updateAgentDeps fenceWitnessState.agents 1
          (fun deps =>
            { deps with readDependencies := deps.readDependencies ++ [d] })) ∧
    applyIfmSFence fenceExampleGraph GenState.initial 0 = Except.ok GenState.initial ∧
    applyWgtSFence fenceExampleGraph GenState.initial 0 = Except.ok GenState.initial ∧
    applyPleLFence fenceExampleGraph GenState.initial 0 = Except.ok GenState.initial :=
  ⟨claim_C3_amended_fence_first_agent_of_each_type.1 fenceExampleGraph
      GenState.initial fenceStepExample 1 2 (by rfl) (by rfl) (by decide) (by decide),
    claim_C3_amended_fence_first_agent_of_each_type.2.1 fenceExampleGraph
      fenceWitnessState fenceApplyIfmSExample 1 1 (by rfl) (by rfl),
    claim_C3_amended_fence_first_agent_of_each_type.2.2.1 fenceExampleGraph
      fenceWitnessState fenceApplyWgtSExample 1 1 (by rfl) (by rfl),
    claim_C3_amended_fence_first_agent_of_each_type.2.2.2.1 fenceExampleGraph
      fenceWitnessState fenceApplyPleLExample 1 1 (by rfl) (by rfl),
    claim_C3_amended_fence_first_agent_of_each_type.2.2.2.2.1 fenceExampleGraph
      GenState.initial 0 (by rfl),
    claim_C3_amended_fence_first_agent_of_each_type.2.2.2.2.2.1 fenceExampleGraph
      GenState.initial 0 (by rfl),
    claim_C3_amended_fence_first_agent_of_each_type.2.2.2.2.2.2 fenceExampleGraph
      GenState.initial 0 (by rfl)⟩

/-- Min-fold bound: the fold result is at most the initial accumulator. -/
theorem foldl_min_le_init {α : Type} (f : α → Nat) :
    ∀ (l : List α) (a : Nat), l.foldl (fun r y => min r (f y)) a ≤ a := by
  intro l
  induction l with
  | nil => intro a; exact le_refl a
  | cons hd tl ih =>
    intro a
    exact le_trans (ih (min a (f hd))) (min_le_left a (f hd))

/-- Min-fold bound: the fold result is at most any folded value. -/
theorem foldl_min_le_mem {α : Type} (f : α → Nat) :
    ∀ (l : List α) (a : Nat) (x : α), x ∈ l →
      l.foldl (fun r y => min r (f y)) a ≤ f x := by
  intro l
  induction l with
  | nil => intro a x hx; cases hx
  | cons hd tl ih =>
    intro a x hx
    cases hx with
    | head =>
      exact le_trans (foldl_min_le_init f tl (min a (f hd))) (min_le_right a (f hd))
    | tail _ h => exact ih (min a (f hd)) x h

/-- Max-fold bound: the fold result is at least the initial accumulator. -/
theorem foldl_max_ge_init {α : Type} (f : α → Nat) :
    ∀ (l : List α) (a : Nat), a ≤ l.foldl (fun r y => max r (f y)) a := by
  intro l
  induction l with
  | nil => intro a; exact le_refl a
  | cons hd tl ih =>
    intro a
    exact le_trans (le_max_left a (f hd)) (ih (max a (f hd)))

/-- Max-fold bound: the fold result is at least any folded value. -/
theorem foldl_max_ge_mem {α : Type} (f : α → Nat) :
    ∀ (l : List α) (a : Nat) (x : α), x ∈ l →
      f x ≤ l.foldl (fun r y => max r (f y)) a := by
  intro l
  induction l with
  | nil => intro a x hx; cases hx
  | cons hd tl ih =>
    intro a x hx
    cases hx with
    | head =>
      exact le_trans (le_max_right a (f hd)) (foldl_max_ge_init f tl (max a (f hd)))
    | tail _ h => exact ih (max a (f hd)) x h

/-- Membership in producersOf unpacked. -/
theorem mem_producersOf {g : OpGraph} {b p : Nat} :
    p ∈ g.producersOf b ↔ p < g.ops.length ∧ g.outputOf p = some b := by
  simp [OpGraph.producersOf, List.mem_filter, List.mem_range]

/-- Membership in consumersOf unpacked. -/
theorem mem_consumersOf {g : OpGraph} {b c : Nat} :
    c ∈ g.consumersOf b ↔ c < g.ops.length ∧ b ∈ g.inputsOf c := by
  simp [OpGraph.consumersOf, List.mem_filter, List.mem_range]

/-- WalkGraphUp soundness: on a topologically ordered graph, with fuel
exceeding every producer index, the walk result is at most the index of
every producer of the buffer. -/
theorem walkGraphUp_le_producer (g : OpGraph) (hord : g.topologicallyOrdered) :
    ∀ (fuel b p : Nat), p ∈ g.producersOf b → p < fuel →
      walkGraphUp g fuel b ≤ p := by
  intro fuel
  induction fuel with
  | zero => intro b p _ hplt; omega
  | succ fuel ih =>
    intro b p hp hplt
    unfold walkGraphUp
    have houter := foldl_min_le_mem
      (fun producer =>
        let earliestOpIdxThisProducer := (g.inputsOf producer).foldl
          (fun earliest input =>
            if (g.buffer input).location ≠ Location.Dram then
              min earliest (walkGraphUp g fuel input)
            else earliest) sizeTMax
        if earliestOpIdxThisProducer = sizeTMax then producer
        else earliestOpIdxThisProducer)
      (g.producersOf b) sizeTMax p hp
    refine le_trans houter ?_
    show (if (g.inputsOf p).foldl
        (fun earliest input =>
          if (g.buffer input).location ≠ Location.Dram then
            min earliest (walkGraphUp g fuel input)
          else earliest) sizeTMax = sizeTMax then p
      else (g.inputsOf p).foldl
        (fun earliest input =>
          if (g.buffer input).location ≠ Location.Dram then
            min earliest (walkGraphUp g fuel input)
          else earliest) sizeTMax) ≤ p
    -- Every recursive walk from an input of p is the sentinel or earlier
    -- than p.
    have hins : ∀ input ∈ g.inputsOf p, walkGraphUp g fuel input = sizeTMax ∨
        walkGraphUp g fuel input < p := by
      intro input hinput
      cases hprod : g.producersOf input with
      | nil =>
        left
        cases fuel with
        | zero => rfl
        | succ fuel2 =>
          unfold walkGraphUp
          rw [hprod]
          rfl
      | cons j js =>
        right
        have hj : j ∈ g.producersOf input := by rw [hprod]; exact List.mem_cons_self j js
        have hjp : j < p := by
          have hpmem : p ∈ List.range g.ops.length :=
            List.mem_range.mpr (mem_producersOf.mp hp).1
          exact hord p hpmem input hinput j hj
        exact lt_of_le_of_lt (ih input j hj (by omega)) hjp
    have hfold : ∀ (l : List Nat), (∀ x ∈ l, walkGraphUp g fuel x = sizeTMax ∨
          walkGraphUp g fuel x < p) →
        ∀ a, (a = sizeTMax ∨ a < p) →
        (l.foldl (fun earliest input =>
            if (g.buffer input).location ≠ Location.Dram then
              min earliest (walkGraphUp g fuel input)
            else earliest) a = sizeTMax ∨
          l.foldl (fun earliest input =>
            if (g.buffer input).location ≠ Location.Dram then
              min earliest (walkGraphUp g fuel input)
            else earliest) a < p) := by
      intro l
      induction l with
      | nil => intro _ a ha; exact ha
      | cons hd tl ihl =>
        intro hf a ha
        simp only [List.foldl_cons]
        apply ihl (fun x hx => hf x (List.mem_cons_of_mem hd hx))
        by_cases hc : (g.buffer hd).location ≠ Location.Dram
        · rw [if_pos hc]
          rcases ha with ha | ha
          · rcases hf hd (List.mem_cons_self hd tl) with hfh | hfh
            · left
              rw [ha, hfh]
              exact min_self sizeTMax
            · right
              exact lt_of_le_of_lt (min_le_right a (walkGraphUp g fuel hd)) hfh
          · right
            exact lt_of_le_of_lt (min_le_left a (walkGraphUp g fuel hd)) ha
        · rw [if_neg hc]
          exact ha
    by_cases hif : (g.inputsOf p).foldl
        (fun earliest input =>
          if (g.buffer input).location ≠ Location.Dram then
            min earliest (walkGraphUp g fuel input)
          else earliest) sizeTMax = sizeTMax
    · rw [if_pos hif]
    · rw [if_neg hif]
      rcases hfold (g.inputsOf p) hins sizeTMax (Or.inl rfl) with he | he
      · exact absurd he hif
      · omega

/-- WalkGraphDown soundness: on a topologically ordered graph where every
op has an output and every non-DRAM output is consumed, with fuel at least
the op count minus the consumer index, the walk result is at least the
index of every consumer of the buffer. -/
theorem walkGraphDown_ge_consumer (g : OpGraph) (hord : g.topologicallyOrdered)
    (hout : ∀ i ∈ List.range g.ops.length, (g.outputOf i).isSome)
    (hcons : ∀ i ∈ List.range g.ops.length, ∀ b ∈ (g.outputOf i).toList,
      (g.buffer b).location ≠ Location.Dram → g.consumersOf b ≠ []) :
    ∀ (fuel b c : Nat), c ∈ g.consumersOf b → g.ops.length ≤ fuel + c →
      c ≤ walkGraphDown g fuel b := by
  intro fuel
  induction fuel with
  | zero =>
    intro b c hc hfuel
    have := (mem_consumersOf.mp hc).1
    omega
  | succ fuel ih =>
    intro b c hc hfuel
    unfold walkGraphDown
    have hclen : c < g.ops.length := (mem_consumersOf.mp hc).1
    have houter := foldl_max_ge_mem
      (fun consumer =>
        match g.outputOf consumer with
        | some output =>
          if (g.buffer output).location = Location.Dram then consumer
          else walkGraphDown g fuel output
        | none => 0)
      (g.consumersOf b) 0 c hc
    refine le_trans ?_ houter
    have hsome := hout c (List.mem_range.mpr hclen)
    cases hob : g.outputOf c with
    | none => rw [hob] at hsome; cases hsome
    | some ob =>
      simp only [hob]
      by_cases hloc : (g.buffer ob).location = Location.Dram
      · rw [if_pos hloc]
      · rw [if_neg hloc]
        have hobmem : ob ∈ (g.outputOf c).toList := by rw [hob]; exact List.mem_singleton.mpr rfl
        have hne := hcons c (List.mem_range.mpr hclen) ob hobmem hloc
        cases hcs : g.consumersOf ob with
        | nil => exact absurd hcs hne
        | cons c2 cs =>
          have hc2 : c2 ∈ g.consumersOf ob := by
            rw [hcs]; exact List.mem_cons_self c2 cs
          have hcprod : c ∈ g.producersOf ob := mem_producersOf.mpr ⟨hclen, hob⟩
          have hc2len : c2 < g.ops.length := (mem_consumersOf.mp hc2).1
          have hcc2 : c < c2 := hord c2 (List.mem_range.mpr hc2len) ob
            (mem_consumersOf.mp hc2).2 c hcprod
          have := ih ob c2 hc2 (by omega)
          omega

/-- C9: for every intermediate DRAM buffer, the lifetime window reported
to the buffer allocator is sound: on a topologically ordered graph where
every op has an output and non-DRAM outputs are consumed, the reported
start is at most the position of every op that writes the buffer, and the
reported (exclusive) end is beyond the position of every op that reads
it. -/
theorem claim_C9_lifetime_soundness (g : OpGraph)
    (hord : g.topologicallyOrdered)
    (hout : ∀ i ∈ List.range g.ops.length, (g.outputOf i).isSome)
    (hcons : ∀ i ∈ List.range g.ops.length, ∀ b ∈ (g.outputOf i).toList,
      (g.buffer b).location ≠ Location.Dram → g.consumersOf b ≠ [])
    (b s e1 : Nat)
    (hmem : (b, s, e1) ∈ addLifetimeInfoForIntermediateDramBuffers g) :
    (∀ p ∈ g.producersOf b, s ≤ p) ∧ (∀ c ∈ g.consumersOf b, c < e1) := by
  have hdecode : s = walkGraphUp g g.ops.length b ∧
      e1 = walkGraphDown g g.ops.length b + 1 := by
    unfold addLifetimeInfoForIntermediateDramBuffers at hmem
    rw [List.mem_filterMap] at hmem
    obtain ⟨b2, _, hfb⟩ := hmem
    split at hfb
    · simp only [Option.some.injEq, Prod.mk.injEq] at hfb
      obtain ⟨hb, hs, he⟩ := hfb
      subst hb
      exact ⟨hs.symm, he.symm⟩
    · cases hfb
  constructor
  · intro p hp
    rw [hdecode.1]
    exact walkGraphUp_le_producer g hord g.ops.length b p hp
      (mem_producersOf.mp hp).1
  · intro c hc
    rw [hdecode.2]
    have := walkGraphDown_ge_consumer g hord hout hcons g.ops.length b c hc
      (by omega)
    omega

/-- C9 witness: the four-op pipeline with intermediate DRAM buffer 2: the
reported window (0, 4) covers its writer (op 1) and its reader (op 2). -/
theorem claim_C9_lifetime_soundness_witness :
    ((∀ p ∈ lifetimeExampleGraph.producersOf 2, 0 ≤ p) ∧
      (∀ c ∈ lifetimeExampleGraph.consumersOf 2, c < 4)) :=
  claim_C9_lifetime_soundness lifetimeExampleGraph
    (by unfold OpGraph.topologicallyOrdered; decide) (by decide)
    (by decide) 2 0 4 (by decide)

/-! Codec lemmas: definitional unfoldings of the count-driven parsers
(stated so they rewrite syntactically), the parse-after-encode
round-trip, and the corrupt-input errors. -/

theorem readWord_cons (w : Nat) (ws : List Nat) : readWord (w :: ws) = .ok (w, ws) := rfl

theorem readWords_exact (xs rest : List Nat) :
    readWords xs.length (xs ++ rest) = .ok (xs, rest) := by
  simp [readWords, List.take_left, List.drop_left]

theorem parseNList1_zero (ws : List Nat) : parseNList1 0 ws = .ok ([], ws) := rfl

theorem parseNList1_succ (n : Nat) (ws : List Nat) :
    parseNList1 (n + 1) ws = (do
      let (x, ws1) ← parseList1 ws
      let (xs, ws2) ← parseNList1 n ws1
      Except.ok (x :: xs, ws2)) := rfl

theorem parseNAgents_zero (ws : List Nat) : parseNAgents 0 ws = .ok ([], ws) := rfl

theorem parseNAgents_succ (n : Nat) (ws : List Nat) :
    parseNAgents (n + 1) ws = (do
      let (a, ws1) ← parseAgent ws
      let (as_, ws2) ← parseNAgents n ws1
      Except.ok (a :: as_, ws2)) := rfl

theorem parseNAgents_one (ws : List Nat) :
    parseNAgents 1 ws = (do
      let (a, ws1) ← parseAgent ws
      let (as_, ws2) ← parseNAgents 0 ws1
      Except.ok (a :: as_, ws2)) := rfl

theorem parseNCommands_zero (ws : List Nat) : parseNCommands 0 ws = .ok ([], ws) := rfl

theorem parseNCommands_succ (n : Nat) (ws : List Nat) :
    parseNCommands (n + 1) ws = (do
      let (c, ws1) ← parseCommand ws
      let (cs, ws2) ← parseNCommands n ws1
      Except.ok (c :: cs, ws2)) := rfl

theorem parseNCommands_one (ws : List Nat) :
    parseNCommands 1 ws = (do
      let (c, ws1) ← parseCommand ws
      let (cs, ws2) ← parseNCommands 0 ws1
      Except.ok (c :: cs, ws2)) := rfl

theorem parseTopCommands_nil (fuel : Nat) : parseTopCommands fuel [] = .ok [] := by
  cases fuel <;> rfl

theorem parseTopCommands_succ (fuel : Nat) (w : Nat) (ws : List Nat) :
    parseTopCommands (fuel + 1) (w :: ws) = (do
      let (c, ws1) ← parseTopCommand (w :: ws)
      let cs ← parseTopCommands fuel ws1
      Except.ok (c :: cs)) := rfl

theorem parseList1_roundtrip (xs rest : List Nat) :
    parseList1 (encodeList1 xs ++ rest) = .ok (xs, rest) := by
  simp [parseList1, encodeList1, readWord, bind, Except.bind, readWords_exact]

theorem parseNList1_roundtrip (xss : List (List Nat)) (rest : List Nat) :
    parseNList1 xss.length ((xss.map encodeList1).flatten ++ rest) = .ok (xss, rest) := by
  induction xss generalizing rest with
  | nil => simp [parseNList1_zero]
  | cons x xs ih =>
    simp [parseNList1_succ, bind, Except.bind, List.append_assoc, parseList1_roundtrip, ih]

theorem parseList2_roundtrip (xss : List (List Nat)) (rest : List Nat) :
    parseList2 (encodeList2 xss ++ rest) = .ok (xss, rest) := by
  simp [parseList2, encodeList2, readWord, bind, Except.bind, parseNList1_roundtrip]

theorem parseList1_roundtrip_nil (xs : List Nat) :
    parseList1 (encodeList1 xs) = .ok (xs, []) := by
  have h := parseList1_roundtrip xs []
  simpa using h

theorem parseAgent_roundtrip (a : CsAgent) (rest : List Nat) :
    parseAgent (encodeAgent a ++ rest) = .ok (a, rest) := by
  obtain ⟨n, data⟩ := a
  cases data <;> rfl

theorem parseNAgents_roundtrip (as_ : List CsAgent) (rest : List Nat) :
    parseNAgents as_.length ((as_.map encodeAgent).flatten ++ rest) = .ok (as_, rest) := by
  induction as_ generalizing rest with
  | nil => simp [parseNAgents_zero]
  | cons a as_ ih =>
    simp [parseNAgents_succ, bind, Except.bind, List.append_assoc, parseAgent_roundtrip, ih]

theorem parseCommandBody_roundtrip (c : CsCommand) (h : c.wellFormed) :
    parseCommandBody (encodeCommandPayload c) = .ok c := by
  cases c with
  | waitForCounter x => rfl
  | dma x =>
    obtain ⟨t, f0, f1, f2, f3, f4, f5, f6, f7, f8, f9⟩ := x
    simp only [CsCommand.wellFormed, validDmaCommandType] at h
    rcases h with h | h | h | h <;> subst h <;> rfl
  | programMceStripe x =>
    obtain ⟨agentId, mul, rowStride, cfg1, pad, wko, top, mid, bot, slotPad,
      stripeSize, ofmCfg, wba, cfg2, nb⟩ := x
    simp [parseCommandBody, encodeCommandPayload, readWord, bind, Except.bind,
      List.append_assoc, parseList2_roundtrip, parseList1_roundtrip]
  | configMceif x => rfl
  | startMceStripe x => rfl
  | loadPleCodeIntoPleSram x => rfl
  | startPleStripe x =>
    obtain ⟨agentId, scratch⟩ := x
    simp [parseCommandBody, encodeCommandPayload, readWord, bind, Except.bind,
      parseList1_roundtrip_nil]

theorem parseCommand_roundtrip (c : CsCommand) (h : c.wellFormed) (rest : List Nat) :
    parseCommand (encodeCommand c ++ rest) = .ok (c, rest) := by
  simp [parseCommand, encodeCommand, readWord, bind, Except.bind, readWords_exact,
    parseCommandBody_roundtrip c h]

theorem parseNCommands_roundtrip (cs : List CsCommand) (h : ∀ x ∈ cs, x.wellFormed)
    (rest : List Nat) :
    parseNCommands cs.length ((cs.map encodeCommand).flatten ++ rest) = .ok (cs, rest) := by
  induction cs generalizing rest with
  | nil => simp [parseNCommands_zero]
  | cons c cs ih =>
    have hc : c.wellFormed := h c (List.mem_cons_self c cs)
    have hcs : ∀ x ∈ cs, x.wellFormed := fun x hx => h x (List.mem_cons_of_mem c hx)
    simp [parseNCommands_succ, bind, Except.bind, List.append_assoc,
      parseCommand_roundtrip c hc, ih hcs]

theorem parseCascade_roundtrip (c : CsCascade) (h : c.wellFormed) (rest : List Nat) :
    parseCascade (encodeCascade c ++ rest) = .ok (c, rest) := by
  obtain ⟨agents, rd, wr, mce, ple⟩ := c
  obtain ⟨hrd, hwr, hmce, hple⟩ := h
  simp [parseCascade, encodeCascade, readWord, bind, Except.bind, List.append_assoc,
    parseNAgents_roundtrip, parseNCommands_roundtrip _ hrd, parseNCommands_roundtrip _ hwr,
    parseNCommands_roundtrip _ hmce, parseNCommands_roundtrip _ hple]

theorem parseTopCommand_roundtrip (c : TopCommand) (h : c.wellFormed) (rest : List Nat) :
    parseTopCommand (encodeTopCommand c ++ rest) = .ok (c, rest) := by
  cases c with
  | dumpDram d =>
    obtain ⟨i, fn⟩ := d
    simp [parseTopCommand, encodeTopCommand, readWord, bind, Except.bind,
      List.append_assoc, parseList1_roundtrip]
  | dumpSram fn =>
    simp [parseTopCommand, encodeTopCommand, readWord, bind, Except.bind,
      List.append_assoc, parseList1_roundtrip]
  | cascade cc =>
    simp [parseTopCommand, encodeTopCommand, readWord, bind, Except.bind,
      List.append_assoc, parseCascade_roundtrip cc h]

theorem encodeTopCommand_length_pos (c : TopCommand) : 1 ≤ (encodeTopCommand c).length := by
  cases c <;> simp [encodeTopCommand]

theorem encodeTopCommands_length_ge (cs : List TopCommand) :
    cs.length ≤ ((cs.map encodeTopCommand).flatten).length := by
  induction cs with
  | nil => simp
  | cons c cs ih =>
    simp only [List.map_cons, List.flatten_cons, List.length_append, List.length_cons]
    have h1 := encodeTopCommand_length_pos c
    omega

theorem parseTopCommands_roundtrip (cs : List TopCommand) (h : ∀ c ∈ cs, c.wellFormed) :
    ∀ fuel, cs.length ≤ fuel →
      parseTopCommands fuel ((cs.map encodeTopCommand).flatten) = .ok cs := by
  induction cs with
  | nil => intro fuel _; simp [parseTopCommands_nil]
  | cons c cs ih =>
    intro fuel hfuel
    have hc : c.wellFormed := h c (List.mem_cons_self c cs)
    have hcs : ∀ x ∈ cs, x.wellFormed := fun x hx => h x (List.mem_cons_of_mem c hx)
    obtain ⟨fuel, rfl⟩ : ∃ k, fuel = k + 1 :=
      ⟨fuel - 1, by simp at hfuel; omega⟩
    obtain ⟨w, t, hw⟩ : ∃ w t, encodeTopCommand c = w :: t := by
      cases c <;> exact ⟨_, _, rfl⟩
    have hparse := parseTopCommand_roundtrip c hc ((cs.map encodeTopCommand).flatten)
    rw [hw] at hparse
    rw [List.map_cons, List.flatten_cons, hw, List.cons_append, parseTopCommands_succ]
    rw [List.cons_append] at hparse
    simp [hparse, bind, Except.bind, ih hcs fuel (by simp at hfuel; omega)]

theorem parseBinary_roundtrip (x : CommandStreamData) (h : x.wellFormed) :
    parseBinary (encodeBinary x) = .ok x := by
  obtain ⟨v1, v2, v3, cs⟩ := x
  have hp := parseTopCommands_roundtrip cs h ((cs.map encodeTopCommand).flatten).length
    (encodeTopCommands_length_ge cs)
  simp only [parseBinary, encodeBinary, readWord, bind, Except.bind]
  rw [hp]


theorem parseAgent_invalid (t : Nat) (ht : 6 ≤ t) (ws : List Nat) :
    parseAgent (t :: ws) = .error (.invalidAgentType t) := by
  have h0 : ¬ t = 0 := by omega
  have h1 : ¬ t = 1 := by omega
  have h2 : ¬ t = 2 := by omega
  have h3 : ¬ t = 3 := by omega
  have h4 : ¬ t = 4 := by omega
  have h5 : ¬ t = 5 := by omega
  simp [parseAgent, readWord, bind, Except.bind, h0, h1, h2, h3, h4, h5]

theorem parseCommandBody_invalid (u : Nat) (hu : 10 ≤ u) (ws : List Nat) :
    parseCommandBody (u :: ws) = .error (.invalidCommandType u) := by
  have h0 : ¬ u = 0 := by omega
  have h1 : ¬ u = 1 := by omega
  have h2 : ¬ u = 2 := by omega
  have h3 : ¬ u = 3 := by omega
  have h4 : ¬ u = 4 := by omega
  have h5 : ¬ u = 5 := by omega
  have h6 : ¬ u = 6 := by omega
  have h7 : ¬ u = 7 := by omega
  have h8 : ¬ u = 8 := by omega
  have h9 : ¬ u = 9 := by omega
  simp [parseCommandBody, readWord, bind, Except.bind, h0, h1, h2, h3, h4, h5, h6, h7,
    h8, h9]

theorem readWords_all (u : Nat) (ws : List Nat) :
    readWords (ws.length + 1) (u :: ws) = .ok (u :: ws, []) := by
  simp [readWords, List.take_succ_cons, List.take_length, List.drop_succ_cons,
    List.drop_length]

/-- C1: For every validly constructed agent/command-queue set x, parsing the
binary encoding of x yields back exactly x, hence rendering the textual form
of the parse result yields exactly the same text as rendering x directly:
(parseBinary (encodeBinary x)).bind renderText = renderText x. -/
theorem claim_C1_binary_roundtrip (x : CommandStreamData) (h : x.wellFormed) :
    parseBinary (encodeBinary x) = .ok x ∧
      (parseBinary (encodeBinary x)).bind renderText = renderText x := by
  have hp := parseBinary_roundtrip x h
  exact ⟨hp, by rw [hp]; rfl⟩

/-- The C1 theorem applied at the example stream, whose cascade holds every
agent role and every command variant. -/
theorem claim_C1_binary_roundtrip_witness :
    exampleStream.wellFormed ∧
      (parseBinary (encodeBinary exampleStream) = .ok exampleStream ∧
        (parseBinary (encodeBinary exampleStream)).bind renderText =
          renderText exampleStream) := by
  have hwf : exampleStream.wellFormed := by
    intro c hc
    simp only [exampleStream, List.mem_cons, List.not_mem_nil, or_false] at hc
    rcases hc with rfl | rfl | rfl
    · exact trivial
    · exact trivial
    · refine ⟨?_, ?_, ?_, ?_⟩ <;> intro x hx <;>
        simp only [List.mem_cons, List.not_mem_nil, or_false] at hx <;>
        rcases hx with rfl | rfl | rfl | rfl <;>
        simp [CsCommand.wellFormed, validDmaCommandType]
  exact ⟨hwf, claim_C1_binary_roundtrip exampleStream hwf⟩

/-- C8: Parsing a binary command stream whose top-level opcode, cascading
agent type tag or cascading command type tag is an unrecognized value fails
with the ParseException identifying the invalid value — never a crash or a
silently misparsed result. -/
theorem claim_C8_corrupt_input_errors (v1 v2 v3 op t u : Nat) (rest : List Nat)
    (hop : 3 ≤ op) (ht : 6 ≤ t) (hu : 10 ≤ u) :
    parseBinary (v1 :: v2 :: v3 :: op :: rest) = .error (.invalidOpcode op) ∧
    parseBinary (v1 :: v2 :: v3 :: 2 :: 1 :: t :: rest) = .error (.invalidAgentType t) ∧
    parseBinary (v1 :: v2 :: v3 :: 2 :: 0 :: 1 :: (rest.length + 1) :: u :: rest) =
      .error (.invalidCommandType u) := by
  refine ⟨?_, ?_, ?_⟩
  · have h0 : ¬ op = 0 := by omega
    have h1 : ¬ op = 1 := by omega
    have h2 : ¬ op = 2 := by omega
    have htc : parseTopCommand (op :: rest) = .error (.invalidOpcode op) := by
      simp [parseTopCommand, readWord, bind, Except.bind, h0, h1, h2]
    simp only [parseBinary, readWord, bind, Except.bind]
    rw [show (op :: rest : List Nat).length = rest.length + 1 from rfl,
      parseTopCommands_succ]
    simp [htc, bind, Except.bind]
  · have hagent := parseAgent_invalid t ht rest
    have hna : parseNAgents 1 (t :: rest) = .error (.invalidAgentType t) := by
      rw [parseNAgents_one]; simp [hagent, bind, Except.bind]
    have hcas : parseCascade (1 :: t :: rest) = .error (.invalidAgentType t) := by
      simp [parseCascade, readWord, bind, Except.bind, hna]
    have htc : parseTopCommand (2 :: 1 :: t :: rest) = .error (.invalidAgentType t) := by
      simp [parseTopCommand, readWord, bind, Except.bind, hcas]
    simp only [parseBinary, readWord, bind, Except.bind]
    rw [show (2 :: 1 :: t :: rest : List Nat).length =
        (1 :: t :: rest : List Nat).length + 1 from rfl,
      parseTopCommands_succ]
    simp [htc, bind, Except.bind]
  · have hbody := parseCommandBody_invalid u hu rest
    have hcmd : parseCommand ((rest.length + 1) :: u :: rest) =
        .error (.invalidCommandType u) := by
      simp [parseCommand, readWord, bind, Except.bind, readWords_all, hbody]
    have hnc : parseNCommands 1 ((rest.length + 1) :: u :: rest) =
        .error (.invalidCommandType u) := by
      rw [parseNCommands_one]; simp [hcmd, bind, Except.bind]
    have hcas : parseCascade (0 :: 1 :: (rest.length + 1) :: u :: rest) =
        .error (.invalidCommandType u) := by
      simp [parseCascade, readWord, bind, Except.bind, parseNAgents_zero, hnc]
    have htc : parseTopCommand (2 :: 0 :: 1 :: (rest.length + 1) :: u :: rest) =
        .error (.invalidCommandType u) := by
      simp [parseTopCommand, readWord, bind, Except.bind, hcas]
    simp only [parseBinary, readWord, bind, Except.bind]
    rw [show (2 :: 0 :: 1 :: (rest.length + 1) :: u :: rest : List Nat).length =
        (0 :: 1 :: (rest.length + 1) :: u :: rest : List Nat).length + 1 from rfl,
      parseTopCommands_succ]
    simp [htc, bind, Except.bind]

/-- The C8 theorem applied at concrete corrupt buffers: opcode 7, agent
type 9, command type 11. -/
theorem claim_C8_corrupt_input_errors_witness :
    (3 ≤ 7 ∧ 6 ≤ 9 ∧ 10 ≤ 11) ∧
      (parseBinary [0, 1, 2, 7] = .error (.invalidOpcode 7) ∧
        parseBinary [0, 1, 2, 2, 1, 9] = .error (.invalidAgentType 9) ∧
        parseBinary [0, 1, 2, 2, 0, 1, 1, 11] = .error (.invalidCommandType 11)) := by
  refine ⟨by omega, ?_⟩
  exact claim_C8_corrupt_input_errors 0 1 2 7 9 11 [] (by omega) (by omega) (by omega)

end EthosN
